import Mathlib

/-!
Verification of the data-cleaning core of the business-analytics-platform
repository (src/ingestion/validators.py, data_cleaner.py, data_loader.py,
cleaning_pipeline.py), as a shallow embedding in Lean 4.

Modelling conventions:
* A cell value (a pandas scalar read from CSV) is `Value`: null (NaN), a
  string, or an integer.  Numeric literals of the source data (prices,
  quantities, stock, integer-encoded timestamps) are modelled as integers;
  `float(...)` / `int(...)` / `pd.to_datetime(...)` are modelled as fallible
  coercions returning `Except PyErr _`, mirroring which Python exceptions each
  call can raise, so that the try/except structure of the validators is kept.
* A dataframe is `Table`: a column-name list plus rows; each row carries its
  pandas index label (a `Nat`) and its cells, positionally aligned with the
  columns.  `getCell` looks a cell up by column name, returning null when the
  column is absent; the Python code instead raises `KeyError` on a missing
  column, so every theorem about a cleaner carries hypotheses that the
  columns the cleaner accesses unconditionally are present — on those tables
  this total model and the code coincide.
* `df.select_dtypes(include=['object'])` of a CSV-loaded frame selects the
  columns whose cells are all strings or nulls (CSV columns are never
  type-mixed); this is `isStrCol`.  `.str.strip()` maps strings to their
  trimmed form and leaves nulls in place (`trimValue`, built on `pyStrip`).
* The mutable `cleaning_log` / `validation_errors` accumulators of
  `DataCleaner`/`DataValidator` are returned alongside each cleaning result
  and concatenated in call order by the pipeline, which is equivalent to the
  sequential appends of the source.
-/

/-- A pandas scalar cell value as read from a CSV file. -/
inductive Value where
  | null : Value
  | str : String → Value
  | int : Int → Value
deriving DecidableEq, Repr

/-- The Python exception classes relevant to the validators. -/
inductive PyErr where
  | valueError : PyErr
  | typeError : PyErr
  | parseError : PyErr
deriving DecidableEq, Repr

/-- `pd.isna(v)`: true exactly on NaN/None cells.  Note `pd.isna('')` is
False. -/
def isna : Value → Bool
  | Value.null => true
  | _ => false

/-- Python `str(v)` on a cell value (`str(np.nan) = "nan"`). -/
def pyStr : Value → String
  | Value.null => "nan"
  | Value.str s => s
  | Value.int n => toString n

/-- Python `float(v)`: numeric literals are modelled as integers; a
non-numeric string raises `ValueError`, `None`/NaN raises `TypeError`. -/
def pyFloat : Value → Except PyErr Int
  | Value.null => Except.error PyErr.typeError
  | Value.int n => Except.ok n
  | Value.str s =>
    match s.toInt? with
    | some n => Except.ok n
    | none => Except.error PyErr.valueError

/-- Python `int(v)`: same fallibility as `pyFloat` in this integer model. -/
def pyInt : Value → Except PyErr Int
  | Value.null => Except.error PyErr.typeError
  | Value.int n => Except.ok n
  | Value.str s =>
    match s.toInt? with
    | some n => Except.ok n
    | none => Except.error PyErr.valueError

/-- `pd.to_datetime(v)`: timestamps are modelled as integers (strings encode
the timestamp in decimal); an unparsable value raises. -/
def pdToDatetime : Value → Except PyErr Int
  | Value.null => Except.error PyErr.parseError
  | Value.int n => Except.ok n
  | Value.str s =>
    match s.toInt? with
    | some n => Except.ok n
    | none => Except.error PyErr.parseError

/-- A `try: body except(handled): return fallback` block whose body yields a
Bool: exceptions in `handled` are caught, others propagate. -/
def pyTryCatch (handled : PyErr → Bool) (body : Except PyErr Bool)
    (fallback : Bool) : Except PyErr Bool :=
  match body with
  | Except.ok b => Except.ok b
  | Except.error e => if handled e then Except.ok fallback else Except.error e

/-- Characters allowed in the local part of the email regex
`[a-zA-Z0-9._%+-]`. -/
def isLocalChar (c : Char) : Bool :=
  c.isAlphanum || c == '.' || c == '_' || c == '%' || c == '+' || c == '-'

/-- Characters allowed in the domain body of the email regex
`[a-zA-Z0-9.-]`. -/
def isDomainChar (c : Char) : Bool :=
  c.isAlphanum || c == '.' || c == '-'

/-- Split a character list at the first occurrence of `a`, returning the
parts before and after it. -/
def splitFirstAt (a : Char) : List Char → Option (List Char × List Char)
  | [] => none
  | c :: cs =>
    if c = a then some ([], cs)
    else (splitFirstAt a cs).map (fun p => (c :: p.1, p.2))

/-- Match the domain part `[a-zA-Z0-9.-]+\.[a-zA-Z]\x7b2,\x7d` against a full
character list: since the final segment admits no dot, the split dot is
necessarily the last dot of the list. -/
def domainOk (cs : List Char) : Bool :=
  let rtld := cs.reverse.takeWhile (fun c => c ≠ '.')
  match cs.reverse.drop rtld.length with
  | '.' :: rpre =>
    decide (rpre ≠ []) && rpre.all isDomainChar &&
      decide (2 ≤ rtld.length) && rtld.all Char.isAlpha
  | _ => false

/-- Full match of `^[a-zA-Z0-9._%+-]+@[a-zA-Z0-9.-]+\.[a-zA-Z]\x7b2,\x7d$`
against a string; `$` in Python also matches just before one trailing
newline, so one final newline is dropped first. -/
def emailRegexMatch (s : String) : Bool :=
  let cs0 := s.toList
  let cs := if cs0.getLast? = some '\n' then cs0.dropLast else cs0
  match splitFirstAt '@' cs with
  | some (loc, dom) => decide (loc ≠ []) && loc.all isLocalChar && domainOk dom
  | none => false

/-- `DataValidator.validate_email`: null/empty is invalid, otherwise the
regex decides. -/
def validate_email (email : Value) : Bool :=
  if isna email || email == Value.str "" then false
  else emailRegexMatch (pyStr email)

/-- `DataValidator.validate_phone`: strip non-digits from `str(phone)`, valid
iff exactly 10 digits remain. -/
def validate_phone (phone : Value) : Bool :=
  if isna phone || phone == Value.str "" then false
  else ((pyStr phone).toList.filter Char.isDigit).length == 10

/-- `DataValidator.validate_price`: null invalid; otherwise `float(price)`
must succeed and be `> 0` (the `except` catches ValueError/TypeError). -/
def validate_price (price : Value) : Bool :=
  if isna price then false
  else
    match pyFloat price with
    | Except.ok n => decide (0 < n)
    | Except.error _ => false

/-- `DataValidator.validate_quantity`: null invalid; otherwise
`int(quantity)` must succeed and be `> 0`. -/
def validate_quantity (quantity : Value) : Bool :=
  if isna quantity then false
  else
    match pyInt quantity with
    | Except.ok n => decide (0 < n)
    | Except.error _ => false

/-- `DataValidator.validate_date`: null/empty invalid; otherwise the value
must parse and the parsed timestamp must be `≤ now` (future dates invalid).
`now` is the injected processing time `pd.Timestamp.now()`. -/
def validate_date (now : Int) (date : Value) : Bool :=
  if isna date || date == Value.str "" then false
  else
    match pdToDatetime date with
    | Except.ok t => decide (t ≤ now)
    | Except.error _ => false

/-- `DataValidator.validate_order_status`: exact membership in the closed
status set (Python `in` uses `==`; never raises). -/
def validate_order_status (status : Value) : Bool :=
  status == Value.str "Pending" || status == Value.str "Completed" ||
    status == Value.str "Cancelled"

/-- `validate_price` with Python raise semantics made explicit: the `try`
body may raise, the `except (ValueError, TypeError)` clause catches exactly
those classes. -/
def validate_price_exc (price : Value) : Except PyErr Bool :=
  if isna price then Except.ok false
  else
    pyTryCatch (fun e => e == PyErr.valueError || e == PyErr.typeError)
      ((pyFloat price).map (fun n => decide (0 < n))) false

/-- `validate_quantity` with explicit raise semantics. -/
def validate_quantity_exc (quantity : Value) : Except PyErr Bool :=
  if isna quantity then Except.ok false
  else
    pyTryCatch (fun e => e == PyErr.valueError || e == PyErr.typeError)
      ((pyInt quantity).map (fun n => decide (0 < n))) false

/-- `validate_date` with explicit raise semantics: the bare `except:`
catches every exception. -/
def validate_date_exc (now : Int) (date : Value) : Except PyErr Bool :=
  if isna date || date == Value.str "" then Except.ok false
  else
    pyTryCatch (fun _ => true)
      ((pdToDatetime date).map (fun t => decide (t ≤ now))) false

/-- `validate_email` with explicit raise semantics: the body contains no
raising operation. -/
def validate_email_exc (email : Value) : Except PyErr Bool :=
  Except.ok (validate_email email)

/-- `validate_phone` with explicit raise semantics: `re.sub`/`len` never
raise. -/
def validate_phone_exc (phone : Value) : Except PyErr Bool :=
  Except.ok (validate_phone phone)

/-- `validate_order_status` with explicit raise semantics: `in` on a list of
strings never raises. -/
def validate_order_status_exc (status : Value) : Except PyErr Bool :=
  Except.ok (validate_order_status status)

/-- An entry of `DataCleaner.cleaning_log` (`log_cleaning`). -/
structure CleanLogEntry where
  dataset : String
  action : String
  rows_affected : Nat
deriving DecidableEq, Repr

/-- An entry of `DataValidator.validation_errors` (`log_validation_error`);
`value` is `str(value)[:50]`. -/
structure ValidationError where
  dataset : String
  row : Nat
  column : String
  issue : String
  value : String
deriving DecidableEq, Repr

/-- A dataframe: named columns and rows; each row is its pandas index label
together with its cells, aligned positionally with `cols`. -/
structure Table where
  cols : List String
  rows : List (Nat × List Value)
deriving DecidableEq, Repr

/-- `df.loc[row, col]` by position: first column matching the name; null when
the column is absent (the source raises `KeyError` there — theorems carry
column-presence hypotheses at every unconditional access). -/
def getCell : List String → List Value → String → Value
  | [], _, _ => Value.null
  | _ :: _, [], _ => Value.null
  | c :: cs, v :: vs, col => if c = col then v else getCell cs vs col

/-- Drop leading and trailing whitespace characters from a character list. -/
def trimChars (cs : List Char) : List Char :=
  ((cs.dropWhile Char.isWhitespace).reverse.dropWhile Char.isWhitespace).reverse

/-- Python `str.strip()`. -/
def pyStrip (s : String) : String :=
  String.mk (trimChars s.toList)

/-- `.str.strip()` on one cell: strings are stripped, NaN stays NaN. -/
def trimValue : Value → Value
  | Value.str s => Value.str (pyStrip s)
  | v => v

/-- Whether a cell can live in an object-dtype column of a CSV-loaded frame
(strings and NaN only). -/
def isStrValue : Value → Bool
  | Value.int _ => false
  | _ => true

/-- `select_dtypes(include=['object'])` membership for a CSV-loaded frame:
a column is object-dtype iff its cells are all strings or nulls.  Dtype is
fixed by `read_csv` on the full column, hence computed over the input rows. -/
def isStrCol (df : Table) (c : String) : Bool :=
  df.rows.all (fun r => isStrValue (getCell df.cols r.2 c))

/-- The whitespace-trim loop of `clean_customers` on one cell of column `c`:
stripped iff the column is object-dtype. -/
def stripCell (df : Table) (c : String) (v : Value) : Value :=
  if isStrCol df c then trimValue v else v

/-- The whitespace-trim loop of `clean_customers` applied to one row: each
object-dtype column's cell is stripped. -/
def stripRow (df : Table) : List String → List Value → List Value
  | _, [] => []
  | [], vs => vs
  | c :: cs, v :: vs => stripCell df c v :: stripRow df cs vs

/-- The mask `df_clean['stock_quantity'] < 0` on one cell (NaN < 0 is
False in pandas). -/
def cellLt0 : Value → Bool
  | Value.int n => decide (n < 0)
  | _ => false

/-- `df_clean.loc[negative_stock, 'stock_quantity'] = 0` on one cell of
column `c`: a negative number in the `stock_quantity` column becomes 0. -/
def clampCell (c : String) (v : Value) : Value :=
  if c = "stock_quantity" && cellLt0 v then Value.int 0 else v

/-- `df_clean.loc[negative_stock, 'stock_quantity'] = 0` applied to one row:
every `stock_quantity` position holding a negative number becomes 0. -/
def clampRow : List String → List Value → List Value
  | _, [] => []
  | [], vs => vs
  | c :: cs, v :: vs => clampCell c v :: clampRow cs vs

/-- `df.duplicated(..., keep='first')` followed by the filter: keep each row
whose `key` has not been seen before (keys never inspect the index label,
matching pandas `duplicated`, which compares cell values only). -/
def dropDupsBy {K : Type} [DecidableEq K] (key : Nat × List Value → K) :
    List (Nat × List Value) → List K → List (Nat × List Value)
  | [], _ => []
  | r :: rs, seen =>
    if key r ∈ seen then dropDupsBy key rs seen
    else r :: dropDupsBy key rs (key r :: seen)

/-- `clean_customers`, after removing exact duplicate rows
(`duplicated(keep='first')`). -/
def customersStep1 (df : Table) : List (Nat × List Value) :=
  dropDupsBy (fun r => r.2) df.rows []

/-- `clean_customers`, after additionally removing duplicate `customer_id`
rows (first kept). -/
def customersStep2 (df : Table) : List (Nat × List Value) :=
  dropDupsBy (fun r => getCell df.cols r.2 "customer_id") (customersStep1 df) []

/-- The critical customer fields whose absence removes the row. -/
def customersCritical : List String :=
  ["customer_id", "first_name", "last_name"]

/-- `df_clean[critical].isna().any(axis=1)` on one row. -/
def missingAny (cols : List String) (critical : List String)
    (cells : List Value) : Bool :=
  critical.any (fun c => isna (getCell cols cells c))

/-- `clean_customers`, after additionally removing rows missing a critical
field; this is the output of all removal steps (email/phone checks and the
trim do not remove rows). -/
def customersStep3 (df : Table) : List (Nat × List Value) :=
  (customersStep2 df).filter (fun r => !(missingAny df.cols customersCritical r.2))

/-- One `log_validation_error(dataset, idx, column, 'invalid_format',
value)` record. -/
def mkValidationError (dataset : String) (idx : Nat) (column : String)
    (v : Value) : ValidationError :=
  ⟨dataset, idx, column, "invalid_format", (pyStr v).take 50⟩

/-- The error entries `clean_customers` emits for one advisory column
(`email` or `phone`): one per surviving row whose value fails `valid`, and
none when the column is absent (the check is guarded by
`if column in df_clean.columns`). -/
def customerColErrors (df : Table) (column : String) (valid : Value → Bool) :
    List ValidationError :=
  if column ∈ df.cols then
    ((customersStep3 df).filter
        (fun r => !(valid (getCell df.cols r.2 column)))).map
      (fun r => mkValidationError "customers" r.1 column
        (getCell df.cols r.2 column))
  else []

/-- `DataCleaner.clean_customers`: the cleaned table, the cleaning-log
entries appended by this call (in order), and the validation-error entries
appended by this call (in order). -/
def clean_customers (df : Table) :
    Table × List CleanLogEntry × List ValidationError :=
  let rows1 := customersStep1 df
  let rows2 := customersStep2 df
  let rows3 := customersStep3 df
  let log : List CleanLogEntry :=
    [⟨"customers", "duplicates_removed", df.rows.length - rows1.length⟩,
     ⟨"customers", "duplicate_ids_removed", rows1.length - rows2.length⟩,
     ⟨"customers", "missing_critical_removed",
       rows2.countP (fun r => missingAny df.cols customersCritical r.2)⟩]
  let errs := customerColErrors df "email" validate_email ++
    customerColErrors df "phone" validate_phone
  (⟨df.cols, rows3.map (fun r => (r.1, stripRow df df.cols r.2))⟩, log, errs)

/-- `clean_products`, after removing rows with null `product_name`. -/
def productsStep1 (df : Table) : List (Nat × List Value) :=
  df.rows.filter (fun r => !(isna (getCell df.cols r.2 "product_name")))

/-- `clean_products`, after additionally removing rows with invalid
`price`. -/
def productsStep2 (df : Table) : List (Nat × List Value) :=
  (productsStep1 df).filter
    (fun r => validate_price (getCell df.cols r.2 "price"))

/-- `clean_products`, after the in-place negative-stock clamp (applied only
when the `stock_quantity` column exists). -/
def productsStep3 (df : Table) : List (Nat × List Value) :=
  if "stock_quantity" ∈ df.cols then
    (productsStep2 df).map (fun r => (r.1, clampRow df.cols r.2))
  else productsStep2 df

/-- `clean_products`, after additionally removing duplicate `product_id`
rows (first kept). -/
def productsStep4 (df : Table) : List (Nat × List Value) :=
  dropDupsBy (fun r => getCell df.cols r.2 "product_id") (productsStep3 df) []

/-- `DataCleaner.clean_products`: cleaned table plus this call's cleaning-log
entries; the `negative_stock_fixed` entry is emitted only when the
`stock_quantity` column exists. -/
def clean_products (df : Table) : Table × List CleanLogEntry :=
  let log1 : List CleanLogEntry :=
    [⟨"products", "missing_product_name",
       df.rows.countP (fun r => isna (getCell df.cols r.2 "product_name"))⟩,
     ⟨"products", "invalid_price_removed",
       (productsStep1 df).countP
         (fun r => !(validate_price (getCell df.cols r.2 "price")))⟩]
  let log2 : List CleanLogEntry :=
    if "stock_quantity" ∈ df.cols then
      [⟨"products", "negative_stock_fixed",
         (productsStep2 df).countP
           (fun r => cellLt0 (getCell df.cols r.2 "stock_quantity"))⟩]
    else []
  let log3 : List CleanLogEntry :=
    [⟨"products", "duplicate_ids_removed",
       (productsStep3 df).length - (productsStep4 df).length⟩]
  (⟨df.cols, productsStep4 df⟩, log1 ++ log2 ++ log3)

/-- `set(t[c])` as a membership list (the cleaners do not drop nulls here,
unlike the unused `check_foreign_key` helper). -/
def tableIds (t : Table) (c : String) : List Value :=
  t.rows.map (fun r => getCell t.cols r.2 c)

/-- `clean_orders`, after removing rows with null `order_date`. -/
def ordersStep1 (df : Table) : List (Nat × List Value) :=
  df.rows.filter (fun r => !(isna (getCell df.cols r.2 "order_date")))

/-- `clean_orders`, after additionally removing future-dated rows. -/
def ordersStep2 (df : Table) (now : Int) : List (Nat × List Value) :=
  (ordersStep1 df).filter
    (fun r => validate_date now (getCell df.cols r.2 "order_date"))

/-- `clean_orders`, after additionally removing rows with invalid
`order_status`. -/
def ordersStep3 (df : Table) (now : Int) : List (Nat × List Value) :=
  (ordersStep2 df now).filter
    (fun r => validate_order_status (getCell df.cols r.2 "order_status"))

/-- `clean_orders`, after additionally removing rows whose `customer_id` is
not among the (cleaned) customers' ids. -/
def ordersStep4 (df : Table) (customers_df : Table) (now : Int) :
    List (Nat × List Value) :=
  (ordersStep3 df now).filter
    (fun r =>
      decide (getCell df.cols r.2 "customer_id" ∈ tableIds customers_df "customer_id"))

/-- `clean_orders`, after additionally removing duplicate `order_id` rows
(first kept); this is the cleaned orders table's row list. -/
def ordersStep5 (df : Table) (customers_df : Table) (now : Int) :
    List (Nat × List Value) :=
  dropDupsBy (fun r => getCell df.cols r.2 "order_id")
    (ordersStep4 df customers_df now) []

/-- `DataCleaner.clean_orders`: cleaned table plus this call's cleaning-log
entries. -/
def clean_orders (df : Table) (customers_df : Table) (now : Int) :
    Table × List CleanLogEntry :=
  let log : List CleanLogEntry :=
    [⟨"orders", "missing_order_date",
       df.rows.countP (fun r => isna (getCell df.cols r.2 "order_date"))⟩,
     ⟨"orders", "future_dates_removed",
       (ordersStep1 df).countP
         (fun r => !(validate_date now (getCell df.cols r.2 "order_date")))⟩,
     ⟨"orders", "invalid_status_removed",
       (ordersStep2 df now).countP
         (fun r => !(validate_order_status (getCell df.cols r.2 "order_status")))⟩,
     ⟨"orders", "orphaned_customer_id",
       (ordersStep3 df now).countP
         (fun r =>
           !(decide (getCell df.cols r.2 "customer_id" ∈
             tableIds customers_df "customer_id")))⟩,
     ⟨"orders", "duplicate_ids_removed",
       (ordersStep4 df customers_df now).length -
         (ordersStep5 df customers_df now).length⟩]
  (⟨df.cols, ordersStep5 df customers_df now⟩, log)

/-- `clean_order_items`, after removing rows with invalid `quantity`. -/
def itemsStep1 (df : Table) : List (Nat × List Value) :=
  df.rows.filter (fun r => validate_quantity (getCell df.cols r.2 "quantity"))

/-- `clean_order_items`, after additionally removing rows with invalid
`price_per_unit`. -/
def itemsStep2 (df : Table) : List (Nat × List Value) :=
  (itemsStep1 df).filter
    (fun r => validate_price (getCell df.cols r.2 "price_per_unit"))

/-- `clean_order_items`, after additionally removing rows whose `order_id`
is not among the (cleaned) orders' ids. -/
def itemsStep3 (df : Table) (orders_df : Table) : List (Nat × List Value) :=
  (itemsStep2 df).filter
    (fun r => decide (getCell df.cols r.2 "order_id" ∈ tableIds orders_df "order_id"))

/-- `clean_order_items`, after additionally removing rows whose `product_id`
is not among the (cleaned) products' ids; this is the cleaned table's row
list (no duplicate-id step for order items). -/
def itemsStep4 (df : Table) (orders_df : Table) (products_df : Table) :
    List (Nat × List Value) :=
  (itemsStep3 df orders_df).filter
    (fun r =>
      decide (getCell df.cols r.2 "product_id" ∈ tableIds products_df "product_id"))

/-- `DataCleaner.clean_order_items`: cleaned table plus this call's
cleaning-log entries. -/
def clean_order_items (df : Table) (orders_df : Table) (products_df : Table) :
    Table × List CleanLogEntry :=
  let log : List CleanLogEntry :=
    [⟨"order_items", "invalid_quantity_removed",
       df.rows.countP
         (fun r => !(validate_quantity (getCell df.cols r.2 "quantity")))⟩,
     ⟨"order_items", "invalid_price_removed",
       (itemsStep1 df).countP
         (fun r => !(validate_price (getCell df.cols r.2 "price_per_unit")))⟩,
     ⟨"order_items", "orphaned_order_id",
       (itemsStep2 df).countP
         (fun r =>
           !(decide (getCell df.cols r.2 "order_id" ∈ tableIds orders_df "order_id")))⟩,
     ⟨"order_items", "orphaned_product_id",
       (itemsStep3 df orders_df).countP
         (fun r =>
           !(decide (getCell df.cols r.2 "product_id" ∈
             tableIds products_df "product_id")))⟩]
  (⟨df.cols, itemsStep4 df orders_df products_df⟩, log)

/-- The required-columns configuration of `DataLoader.load_all_datasets`
for customers. -/
def customersRequiredCols : List String :=
  ["customer_id", "first_name", "last_name", "email"]

/-- Required columns for products. -/
def productsRequiredCols : List String :=
  ["product_id", "product_name", "category", "price"]

/-- Required columns for orders. -/
def ordersRequiredCols : List String :=
  ["order_id", "customer_id", "order_date", "total_amount"]

/-- Required columns for order items. -/
def orderItemsRequiredCols : List String :=
  ["order_item_id", "order_id", "product_id", "quantity"]

/-- `DataLoader.validate_required_columns`: false when the frame is absent or
some required column is missing.  In `load_all_datasets` the source calls
this for logging only and DISCARDS the Boolean result. -/
def validate_required_columns : Option Table → List String → Bool
  | none, _ => false
  | some t, req => req.all (fun c => decide (c ∈ t.cols))

/-- The loader's result: one optional frame per dataset (`None` signals a
missing or unreadable file). -/
structure RawData where
  customers : Option Table
  products : Option Table
  orders : Option Table
  order_items : Option Table
deriving DecidableEq, Repr

/-- `DataLoader.load_all_datasets` over a file system `fs` mapping filenames
to loadable frames (`none` = missing or unreadable).  `validate_not_empty`
and `validate_required_columns` are invoked for logging only, their results
discarded, so each dataset entry is exactly `load_csv`'s result. -/
def load_all_datasets (fs : String → Option Table) : RawData :=
  ⟨fs "raw_customers.csv", fs "raw_products.csv", fs "raw_orders.csv",
    fs "raw_order_items.csv"⟩

/-- The output of a completed `CleaningPipeline.run`: the four cleaned
tables plus the merged audit trail. -/
structure CleanResult where
  customers : Table
  products : Table
  orders : Table
  order_items : Table
  cleaning_log : List CleanLogEntry
  validation_errors : List ValidationError
deriving DecidableEq, Repr

/-- Step 2 of `CleaningPipeline.run`: the four cleaners in dependency order,
their logs concatenated in call order. -/
def pipeline_clean (c p o oi : Table) (now : Int) : CleanResult :=
  let cc := clean_customers c
  let pc := clean_products p
  let oc := clean_orders o cc.1 now
  let oic := clean_order_items oi oc.1 pc.1
  ⟨cc.1, pc.1, oc.1, oic.1, cc.2.1 ++ pc.2 ++ oc.2 ++ oic.2, cc.2.2⟩

/-- `CleaningPipeline.run`: load all datasets, return `none` (abort) iff any
dataset is `None`, otherwise clean in dependency order.  Faithful to the
source only on runs where every loaded frame contains the columns its
cleaner accesses unconditionally; on other frames the source raises
`KeyError` mid-cleaning and produces nothing, while this total model still
returns a result — theorems asserting completion therefore carry those
column-presence hypotheses. -/
def pipeline_run (fs : String → Option Table) (now : Int) :
    Option CleanResult :=
  let raw := load_all_datasets fs
  match raw.customers, raw.products, raw.orders, raw.order_items with
  | some c, some p, some o, some oi => some (pipeline_clean c p o oi now)
  | _, _, _, _ => none

/-! ### Generic helper lemmas -/

theorem length_filter_add_countP_not {α : Type} (p : α → Bool) (l : List α) :
    (l.filter p).length + l.countP (fun a => !(p a)) = l.length := by
  induction l with
  | nil => simp
  | cons a as ih =>
    by_cases h : p a <;> simp [List.filter_cons, List.countP_cons, h] <;> omega

theorem length_filter_not_add_countP {α : Type} (p : α → Bool) (l : List α) :
    (l.filter (fun a => !(p a))).length + l.countP p = l.length := by
  induction l with
  | nil => simp
  | cons a as ih =>
    by_cases h : p a <;> simp [List.filter_cons, List.countP_cons, h] <;> omega

theorem map_eq_self_of {α : Type} (f : α → α) (l : List α)
    (h : ∀ x ∈ l, f x = x) : l.map f = l := by
  induction l with
  | nil => rfl
  | cons a as ih =>
    simp only [List.map_cons, h a (List.mem_cons_self a as)]
    rw [ih (fun x hx => h x (List.mem_cons_of_mem a hx))]

theorem dropDupsBy_sublist {K : Type} [DecidableEq K]
    (key : Nat × List Value → K) (rs : List (Nat × List Value))
    (seen : List K) : (dropDupsBy key rs seen).Sublist rs := by
  induction rs generalizing seen with
  | nil => simp [dropDupsBy]
  | cons r rs ih =>
    by_cases h : key r ∈ seen
    · rw [dropDupsBy, if_pos h]
      exact (ih seen).trans (List.sublist_cons_self r rs)
    · rw [dropDupsBy, if_neg h]
      exact (ih (key r :: seen)).cons₂ r

theorem length_dropDupsBy_le {K : Type} [DecidableEq K]
    (key : Nat × List Value → K) (rs : List (Nat × List Value))
    (seen : List K) : (dropDupsBy key rs seen).length ≤ rs.length :=
  (dropDupsBy_sublist key rs seen).length_le

theorem mem_of_mem_dropDupsBy {K : Type} [DecidableEq K]
    {key : Nat × List Value → K} {rs : List (Nat × List Value)}
    {seen : List K} {r : Nat × List Value}
    (h : r ∈ dropDupsBy key rs seen) : r ∈ rs :=
  (dropDupsBy_sublist key rs seen).subset h

theorem key_not_seen_of_mem_dropDupsBy {K : Type} [DecidableEq K]
    (key : Nat × List Value → K) (rs : List (Nat × List Value))
    (seen : List K) (r : Nat × List Value)
    (h : r ∈ dropDupsBy key rs seen) : key r ∉ seen := by
  induction rs generalizing seen with
  | nil => simp [dropDupsBy] at h
  | cons x xs ih =>
    by_cases hx : key x ∈ seen
    · rw [dropDupsBy, if_pos hx] at h
      exact ih seen h
    · rw [dropDupsBy, if_neg hx] at h
      rcases List.mem_cons.mp h with heq | hmem
      · rw [heq]; exact hx
      · have h2 := ih (key x :: seen) hmem
        intro hc
        exact h2 (List.mem_cons_of_mem _ hc)

theorem nodup_keys_dropDupsBy {K : Type} [DecidableEq K]
    (key : Nat × List Value → K) (rs : List (Nat × List Value))
    (seen : List K) : ((dropDupsBy key rs seen).map key).Nodup := by
  induction rs generalizing seen with
  | nil => simp [dropDupsBy]
  | cons x xs ih =>
    by_cases hx : key x ∈ seen
    · rw [dropDupsBy, if_pos hx]; exact ih seen
    · rw [dropDupsBy, if_neg hx]
      simp only [List.map_cons, List.nodup_cons]
      constructor
      · intro hc
        obtain ⟨y, hy, hky⟩ := List.mem_map.mp hc
        have h2 := key_not_seen_of_mem_dropDupsBy key xs (key x :: seen) y hy
        exact h2 (by rw [hky]; exact List.mem_cons_self _ _)
      · exact ih (key x :: seen)

theorem dropDupsBy_eq_self {K : Type} [DecidableEq K]
    (key : Nat × List Value → K) (rs : List (Nat × List Value))
    (seen : List K) (hkeys : (rs.map key).Nodup)
    (hseen : ∀ r ∈ rs, key r ∉ seen) : dropDupsBy key rs seen = rs := by
  induction rs generalizing seen with
  | nil => rfl
  | cons x xs ih =>
    rw [dropDupsBy, if_neg (hseen x (List.mem_cons_self x xs))]
    have hk : key x ∉ xs.map key ∧ (xs.map key).Nodup := by
      rw [List.map_cons, List.nodup_cons] at hkeys
      exact hkeys
    rw [ih (key x :: seen) hk.2]
    intro r hr hc
    rcases List.mem_cons.mp hc with heq | hmem
    · exact hk.1 (heq ▸ List.mem_map_of_mem key hr)
    · exact hseen r (List.mem_cons_of_mem x hr) hmem

theorem find?_dropDupsBy {K : Type} [DecidableEq K]
    (key : Nat × List Value → K) (rs : List (Nat × List Value))
    (seen : List K) (r : Nat × List Value)
    (h : r ∈ dropDupsBy key rs seen) :
    rs.find? (fun x => key x == key r) = some r := by
  induction rs generalizing seen with
  | nil => simp [dropDupsBy] at h
  | cons x xs ih =>
    by_cases hx : key x ∈ seen
    · rw [dropDupsBy, if_pos hx] at h
      have hne : ¬ key x = key r := by
        intro hc
        exact key_not_seen_of_mem_dropDupsBy key xs seen r h (hc ▸ hx)
      rw [List.find?_cons_of_neg _ (by simp [hne])]
      exact ih seen h
    · rw [dropDupsBy, if_neg hx] at h
      rcases List.mem_cons.mp h with heq | hmem
      · rw [heq]
        exact List.find?_cons_of_pos _ (by simp)
      · have hne : ¬ key x = key r := by
          intro hc
          exact key_not_seen_of_mem_dropDupsBy key xs (key x :: seen) r hmem
            (hc ▸ List.mem_cons_self _ _)
        rw [List.find?_cons_of_neg _ (by simp [hne])]
        exact ih (key x :: seen) hmem

theorem getCell_not_mem (cols : List String) (vs : List Value) (c : String)
    (h : c ∉ cols) : getCell cols vs c = Value.null := by
  induction cols generalizing vs with
  | nil => cases vs <;> rfl
  | cons c0 cs ih =>
    cases vs with
    | nil => rfl
    | cons v vs =>
      have hne : ¬ c0 = c := by
        intro hc
        exact h (by rw [← hc]; exact List.mem_cons_self c0 cs)
      rw [getCell, if_neg hne]
      exact ih vs (fun hc => h (List.mem_cons_of_mem c0 hc))

theorem trimValue_null : trimValue Value.null = Value.null := rfl

theorem isna_trimValue (v : Value) : isna (trimValue v) = isna v := by
  cases v <;> rfl

theorem isna_stripCell (df : Table) (c : String) (v : Value) :
    isna (stripCell df c v) = isna v := by
  rw [stripCell]
  by_cases h : isStrCol df c
  · rw [if_pos h, isna_trimValue]
  · rw [if_neg h]

theorem getCell_stripRow (df : Table) (cols : List String) (vs : List Value)
    (c : String) :
    getCell cols (stripRow df cols vs) c = stripCell df c (getCell cols vs c) := by
  induction cols generalizing vs with
  | nil =>
    cases vs with
    | nil =>
      show Value.null = stripCell df c Value.null
      rw [stripCell]
      by_cases h : isStrCol df c
      · rw [if_pos h, trimValue_null]
      · rw [if_neg h]
    | cons v vs =>
      show Value.null = stripCell df c Value.null
      rw [stripCell]
      by_cases h : isStrCol df c
      · rw [if_pos h, trimValue_null]
      · rw [if_neg h]
  | cons c0 cs ih =>
    cases vs with
    | nil =>
      show Value.null = stripCell df c Value.null
      rw [stripCell]
      by_cases h : isStrCol df c
      · rw [if_pos h, trimValue_null]
      · rw [if_neg h]
    | cons v vs =>
      rw [stripRow]
      by_cases hc : c0 = c
      · subst hc
        rw [getCell, if_pos rfl, getCell, if_pos rfl]
      · rw [getCell, if_neg hc, getCell, if_neg hc]
        exact ih vs

theorem getCell_clampRow (cols : List String) (vs : List Value) (c : String) :
    getCell cols (clampRow cols vs) c = clampCell c (getCell cols vs c) := by
  induction cols generalizing vs with
  | nil =>
    cases vs with
    | nil =>
      show Value.null = clampCell c Value.null
      rw [clampCell]
      simp [cellLt0]
    | cons v vs =>
      show Value.null = clampCell c Value.null
      rw [clampCell]
      simp [cellLt0]
  | cons c0 cs ih =>
    cases vs with
    | nil =>
      show Value.null = clampCell c Value.null
      rw [clampCell]
      simp [cellLt0]
    | cons v vs =>
      rw [clampRow]
      by_cases hc : c0 = c
      · subst hc
        rw [getCell, if_pos rfl, getCell, if_pos rfl]
      · rw [getCell, if_neg hc, getCell, if_neg hc]
        exact ih vs

theorem clampCell_clampCell (c : String) (v : Value) :
    clampCell c (clampCell c v) = clampCell c v := by
  by_cases h : (decide (c = "stock_quantity") && cellLt0 v) = true
  · have hv : clampCell c v = Value.int 0 := by rw [clampCell, if_pos h]
    rw [hv, clampCell]
    simp [cellLt0]
  · have hv : clampCell c v = v := by rw [clampCell, if_neg h]
    rw [hv]
    exact hv

theorem clampRow_clampRow (cols : List String) (vs : List Value) :
    clampRow cols (clampRow cols vs) = clampRow cols vs := by
  induction cols generalizing vs with
  | nil => cases vs <;> rfl
  | cons c0 cs ih =>
    cases vs with
    | nil => rfl
    | cons v vs =>
      rw [clampRow, clampRow, clampCell_clampCell, ih vs]

theorem clampCell_stock_int_nonneg (v : Value) (n : Int)
    (h : clampCell "stock_quantity" v = Value.int n) : 0 ≤ n := by
  cases v with
  | null => simp [clampCell, cellLt0] at h
  | str s => simp [clampCell, cellLt0] at h
  | int m =>
    by_cases hm : m < 0
    · simp [clampCell, cellLt0, hm] at h
      omega
    · simp [clampCell, cellLt0, hm] at h
      omega

theorem head_dropWhile_not {α : Type} (p : α → Bool) (l : List α) (a : α)
    (t : List α) (h : l.dropWhile p = a :: t) : p a = false := by
  induction l with
  | nil => simp at h
  | cons x xs ih =>
    by_cases hx : p x
    · rw [List.dropWhile_cons, if_pos hx] at h
      exact ih h
    · rw [List.dropWhile_cons, if_neg hx] at h
      injection h with h1 _
      rw [← h1]
      exact Bool.eq_false_iff.mpr hx

theorem dropWhile_suffix_decomp {α : Type} (p : α → Bool) (l : List α) :
    ∃ ws, l = ws ++ l.dropWhile p := by
  induction l with
  | nil => exact ⟨[], rfl⟩
  | cons a as ih =>
    by_cases h : p a
    · obtain ⟨ws, hw⟩ := ih
      refine ⟨a :: ws, ?_⟩
      rw [List.dropWhile_cons, if_pos h, List.cons_append, ← hw]
    · exact ⟨[], by simp [List.dropWhile_cons, h]⟩

theorem trimChars_idem (cs : List Char) :
    trimChars (trimChars cs) = trimChars cs := by
  rw [trimChars, trimChars]
  rcases hr : (cs.dropWhile Char.isWhitespace).reverse.dropWhile Char.isWhitespace
    with _ | ⟨b, r2⟩
  · simp
  · rcases hrr : ((b :: r2) : List Char).reverse with _ | ⟨c, rest⟩
    · simp at hrr
    · obtain ⟨ws, hws⟩ :=
        dropWhile_suffix_decomp Char.isWhitespace (cs.dropWhile Char.isWhitespace).reverse
      rw [hr] at hws
      have hu2 : cs.dropWhile Char.isWhitespace = (b :: r2).reverse ++ ws.reverse := by
        have h3 := congrArg List.reverse hws
        rw [List.reverse_reverse, List.reverse_append] at h3
        exact h3
      have hc : Char.isWhitespace c = false := by
        apply head_dropWhile_not Char.isWhitespace cs c (rest ++ ws.reverse)
        rw [hu2, hrr, List.cons_append]
      have hb : Char.isWhitespace b = false :=
        head_dropWhile_not Char.isWhitespace
          (cs.dropWhile Char.isWhitespace).reverse b r2 hr
      have h1 : ((c :: rest) : List Char).dropWhile Char.isWhitespace = c :: rest := by
        rw [List.dropWhile_cons, if_neg (by simp [hc])]
      have h2 : ((b :: r2) : List Char).dropWhile Char.isWhitespace = b :: r2 := by
        rw [List.dropWhile_cons, if_neg (by simp [hb])]
      rw [h1, ← hrr, List.reverse_reverse, h2]

theorem pyStrip_idem (s : String) : pyStrip (pyStrip s) = pyStrip s :=
  congrArg String.mk (trimChars_idem s.toList)

theorem trimValue_idem (v : Value) : trimValue (trimValue v) = trimValue v := by
  cases v with
  | null => rfl
  | int n => rfl
  | str s => rw [trimValue, trimValue, pyStrip_idem]

theorem stripCell_stripCell (df T2 : Table)
    (h3 : ∀ c, isStrCol T2 c = isStrCol df c) (c : String) (v : Value) :
    stripCell T2 c (stripCell df c v) = stripCell df c v := by
  by_cases h : isStrCol df c
  · have h2 : isStrCol T2 c = true := by rw [h3 c]; exact h
    have e1 : stripCell df c v = trimValue v := by rw [stripCell, if_pos h]
    have e2 : stripCell T2 c (trimValue v) = trimValue (trimValue v) := by
      rw [stripCell, if_pos h2]
    rw [e1, e2, trimValue_idem]
  · have h2 : ¬ isStrCol T2 c = true := by rw [h3 c]; exact h
    have e1 : stripCell df c v = v := by rw [stripCell, if_neg h]
    rw [e1, stripCell, if_neg h2]

theorem stripRow_stripRow (df T2 : Table)
    (h3 : ∀ c, isStrCol T2 c = isStrCol df c) (cols : List String)
    (vs : List Value) :
    stripRow T2 cols (stripRow df cols vs) = stripRow df cols vs := by
  induction cols generalizing vs with
  | nil => cases vs <;> rfl
  | cons c0 cs ih =>
    cases vs with
    | nil => rfl
    | cons v vs =>
      rw [stripRow, stripRow, stripCell_stripCell df T2 h3, ih vs]

theorem countP_filter_key {α : Type} (f : α → Nat) (l : List α)
    (hnd : (l.map f).Nodup) (r : α) (hr : r ∈ l) (q : α → Bool) :
    (l.filter q).countP (fun x => f x == f r) = if q r then 1 else 0 := by
  induction l with
  | nil => simp at hr
  | cons x xs ih =>
    rw [List.map_cons, List.nodup_cons] at hnd
    rcases List.mem_cons.mp hr with heq | hmem
    · subst heq
      have hzero : (xs.filter q).countP (fun y => f y == f r) = 0 := by
        apply List.countP_eq_zero.mpr
        intro a ha
        have hax : a ∈ xs := (List.mem_filter.mp ha).1
        simp only [beq_iff_eq]
        intro hfe
        exact hnd.1 (hfe ▸ List.mem_map_of_mem f hax)
      by_cases hq : q r
      · rw [List.filter_cons, if_pos hq, List.countP_cons, hzero]
        simp [hq]
      · rw [List.filter_cons, if_neg hq, hzero, if_neg hq]
    · have hfx : ¬ (f x == f r) = true := by
        simp only [beq_iff_eq]
        intro hfe
        exact hnd.1 (hfe ▸ List.mem_map_of_mem f hmem)
      by_cases hq : q x
      · rw [List.filter_cons, if_pos hq, List.countP_cons, ih hnd.2 hmem]
        simp [hfx]
      · rw [List.filter_cons, if_neg hq]
        exact ih hnd.2 hmem

theorem customersStep3_sublist (df : Table) :
    (customersStep3 df).Sublist df.rows :=
  ((List.filter_sublist _).trans
    (dropDupsBy_sublist _ (customersStep1 df) [])).trans
    (dropDupsBy_sublist _ df.rows [])

theorem customersStep3_fst_nodup (df : Table)
    (hnd : (df.rows.map Prod.fst).Nodup) :
    ((customersStep3 df).map Prod.fst).Nodup :=
  hnd.sublist ((customersStep3_sublist df).map Prod.fst)

/-- The columns `clean_customers` accesses on every run (`KeyError` in the
source when absent). -/
def customersAccessedCols : List String :=
  ["customer_id", "first_name", "last_name"]

/-- The columns `clean_products` accesses on every run. -/
def productsAccessedCols : List String :=
  ["product_name", "price", "product_id"]

/-- The columns `clean_orders` accesses on every run. -/
def ordersAccessedCols : List String :=
  ["order_date", "order_status", "customer_id", "order_id"]

/-- The columns `clean_order_items` accesses on every run. -/
def itemsAccessedCols : List String :=
  ["quantity", "price_per_unit", "order_id", "product_id"]

theorem customers_email_error_count (df : Table)
    (hnd : (df.rows.map Prod.fst).Nodup) (hem : "email" ∈ df.cols)
    (r : Nat × List Value) (hr : r ∈ customersStep3 df) :
    (clean_customers df).2.2.countP (fun e =>
        e.dataset == "customers" && e.row == r.1 && e.column == "email" &&
          e.issue == "invalid_format") =
      if validate_email (getCell df.cols r.2 "email") then 0 else 1 := by
  have herr : (clean_customers df).2.2 =
      customerColErrors df "email" validate_email ++
        customerColErrors df "phone" validate_phone := rfl
  rw [herr, List.countP_append]
  have hph : (customerColErrors df "phone" validate_phone).countP (fun e =>
      e.dataset == "customers" && e.row == r.1 && e.column == "email" &&
        e.issue == "invalid_format") = 0 := by
    rw [customerColErrors]
    by_cases hp : "phone" ∈ df.cols
    · rw [if_pos hp]
      apply List.countP_eq_zero.mpr
      intro e he
      obtain ⟨x, _, rfl⟩ := List.mem_map.mp he
      simp [mkValidationError]
    · rw [if_neg hp]
      rfl
  rw [hph, Nat.add_zero, customerColErrors, if_pos hem, List.countP_map]
  have hcong : ((customersStep3 df).filter
      (fun x => !(validate_email (getCell df.cols x.2 "email")))).countP
        ((fun e => e.dataset == "customers" && e.row == r.1 &&
          e.column == "email" && e.issue == "invalid_format") ∘
          (fun x => mkValidationError "customers" x.1 "email"
            (getCell df.cols x.2 "email"))) =
      ((customersStep3 df).filter
        (fun x => !(validate_email (getCell df.cols x.2 "email")))).countP
        (fun x => x.1 == r.1) := by
    apply List.countP_congr
    intro x _
    simp [mkValidationError]
  rw [hcong,
    countP_filter_key Prod.fst (customersStep3 df)
      (customersStep3_fst_nodup df hnd) r hr
      (fun x => !(validate_email (getCell df.cols x.2 "email")))]
  by_cases hv : validate_email (getCell df.cols r.2 "email") <;> simp [hv]

theorem customers_phone_error_count (df : Table)
    (hnd : (df.rows.map Prod.fst).Nodup) (hph : "phone" ∈ df.cols)
    (r : Nat × List Value) (hr : r ∈ customersStep3 df) :
    (clean_customers df).2.2.countP (fun e =>
        e.dataset == "customers" && e.row == r.1 && e.column == "phone" &&
          e.issue == "invalid_format") =
      if validate_phone (getCell df.cols r.2 "phone") then 0 else 1 := by
  have herr : (clean_customers df).2.2 =
      customerColErrors df "email" validate_email ++
        customerColErrors df "phone" validate_phone := rfl
  rw [herr, List.countP_append]
  have hem : (customerColErrors df "email" validate_email).countP (fun e =>
      e.dataset == "customers" && e.row == r.1 && e.column == "phone" &&
        e.issue == "invalid_format") = 0 := by
    rw [customerColErrors]
    by_cases hp : "email" ∈ df.cols
    · rw [if_pos hp]
      apply List.countP_eq_zero.mpr
      intro e he
      obtain ⟨x, _, rfl⟩ := List.mem_map.mp he
      simp [mkValidationError]
    · rw [if_neg hp]
      rfl
  rw [hem, Nat.zero_add, customerColErrors, if_pos hph, List.countP_map]
  have hcong : ((customersStep3 df).filter
      (fun x => !(validate_phone (getCell df.cols x.2 "phone")))).countP
        ((fun e => e.dataset == "customers" && e.row == r.1 &&
          e.column == "phone" && e.issue == "invalid_format") ∘
          (fun x => mkValidationError "customers" x.1 "phone"
            (getCell df.cols x.2 "phone"))) =
      ((customersStep3 df).filter
        (fun x => !(validate_phone (getCell df.cols x.2 "phone")))).countP
        (fun x => x.1 == r.1) := by
    apply List.countP_congr
    intro x _
    simp [mkValidationError]
  rw [hcong,
    countP_filter_key Prod.fst (customersStep3 df)
      (customersStep3_fst_nodup df hnd) r hr
      (fun x => !(validate_phone (getCell df.cols x.2 "phone")))]
  by_cases hv : validate_phone (getCell df.cols r.2 "phone") <;> simp [hv]

theorem customers_retained (df : Table) (r : Nat × List Value)
    (hr : r ∈ customersStep3 df) :
    r.1 ∈ (clean_customers df).1.rows.map Prod.fst := by
  have hm : (r.1, stripRow df df.cols r.2) ∈ (clean_customers df).1.rows :=
    List.mem_map.mpr ⟨r, hr, rfl⟩
  exact List.mem_map.mpr ⟨(r.1, stripRow df df.cols r.2), hm, rfl⟩

/-! ### Claim theorems -/

/-- Claim C2: every customer row that survives the removal steps and whose
email or phone fails its validator is retained in the cleaned output (not
removed) and contributes exactly one ValidationErrorEntry per failing field
(dataset 'customers', the failing column, issue 'invalid_format'); a passing
field contributes none. -/
theorem claim_C2 (df : Table) (hacc : customersAccessedCols ⊆ df.cols)
    (hem : "email" ∈ df.cols) (hph : "phone" ∈ df.cols)
    (hnd : (df.rows.map Prod.fst).Nodup) (r : Nat × List Value)
    (hr : r ∈ customersStep3 df) :
    r.1 ∈ (clean_customers df).1.rows.map Prod.fst ∧
    (clean_customers df).2.2.countP (fun e =>
        e.dataset == "customers" && e.row == r.1 && e.column == "email" &&
          e.issue == "invalid_format") =
      (if validate_email (getCell df.cols r.2 "email") then 0 else 1) ∧
    (clean_customers df).2.2.countP (fun e =>
        e.dataset == "customers" && e.row == r.1 && e.column == "phone" &&
          e.issue == "invalid_format") =
      (if validate_phone (getCell df.cols r.2 "phone") then 0 else 1) :=
  ⟨customers_retained df r hr,
   customers_email_error_count df hnd hem r hr,
   customers_phone_error_count df hnd hph r hr⟩

/-- Scenario A input: a single customer with id 1, email "bad-email" and
phone "12345". -/
def scenarioATable : Table :=
  ⟨["customer_id", "first_name", "last_name", "email", "phone"],
   [(0, [Value.int 1, Value.str "John", Value.str "Doe",
         Value.str "bad-email", Value.str "12345"])]⟩

/-- Witness for C2: in Scenario A the row is retained and contributes exactly
one email entry and one phone entry. -/
theorem claim_C2_witness :
    0 ∈ (clean_customers scenarioATable).1.rows.map Prod.fst ∧
    (clean_customers scenarioATable).2.2.countP (fun e =>
        e.dataset == "customers" && e.row == 0 && e.column == "email" &&
          e.issue == "invalid_format") = 1 ∧
    (clean_customers scenarioATable).2.2.countP (fun e =>
        e.dataset == "customers" && e.row == 0 && e.column == "phone" &&
          e.issue == "invalid_format") = 1 := by
  have h := claim_C2 scenarioATable (by decide) (by decide) (by decide)
    (by decide)
    (0, [Value.int 1, Value.str "John", Value.str "Doe",
         Value.str "bad-email", Value.str "12345"]) (by decide)
  have he : validate_email (getCell scenarioATable.cols
      [Value.int 1, Value.str "John", Value.str "Doe",
       Value.str "bad-email", Value.str "12345"] "email") = false := by decide
  have hp : validate_phone (getCell scenarioATable.cols
      [Value.int 1, Value.str "John", Value.str "Doe",
       Value.str "bad-email", Value.str "12345"] "phone") = false := by decide
  rw [he, hp] at h
  simpa using h

/-- Claim C10 (implicit): a customer row surviving the removal steps whose
email or phone value is null (or empty) still generates one 'invalid_format'
ValidationErrorEntry for that column — absent values of these optional
fields are reported as validation errors — while the row is retained. -/
theorem claim_C10 (df : Table) (hacc : customersAccessedCols ⊆ df.cols)
    (hnd : (df.rows.map Prod.fst).Nodup) (r : Nat × List Value)
    (hr : r ∈ customersStep3 df) :
    r.1 ∈ (clean_customers df).1.rows.map Prod.fst ∧
    ("email" ∈ df.cols →
      (getCell df.cols r.2 "email" = Value.null ∨
        getCell df.cols r.2 "email" = Value.str "") →
      (clean_customers df).2.2.countP (fun e =>
          e.dataset == "customers" && e.row == r.1 && e.column == "email" &&
            e.issue == "invalid_format") = 1) ∧
    ("phone" ∈ df.cols →
      (getCell df.cols r.2 "phone" = Value.null ∨
        getCell df.cols r.2 "phone" = Value.str "") →
      (clean_customers df).2.2.countP (fun e =>
          e.dataset == "customers" && e.row == r.1 && e.column == "phone" &&
            e.issue == "invalid_format") = 1) := by
  refine ⟨customers_retained df r hr, ?_, ?_⟩
  · intro hem hval
    rw [customers_email_error_count df hnd hem r hr]
    rcases hval with h | h <;> rw [h] <;> decide
  · intro hph hval
    rw [customers_phone_error_count df hnd hph r hr]
    rcases hval with h | h <;> rw [h] <;> decide

/-- Input with a null email and an empty phone on an otherwise valid
customer. -/
def nullEmailTable : Table :=
  ⟨["customer_id", "first_name", "last_name", "email", "phone"],
   [(5, [Value.int 2, Value.str "Ann", Value.str "Lee", Value.null,
         Value.str ""])]⟩

/-- Witness for C10: the null-email/empty-phone customer is retained and
yields one invalid_format entry per column. -/
theorem claim_C10_witness :
    5 ∈ (clean_customers nullEmailTable).1.rows.map Prod.fst ∧
    (clean_customers nullEmailTable).2.2.countP (fun e =>
        e.dataset == "customers" && e.row == 5 && e.column == "email" &&
          e.issue == "invalid_format") = 1 ∧
    (clean_customers nullEmailTable).2.2.countP (fun e =>
        e.dataset == "customers" && e.row == 5 && e.column == "phone" &&
          e.issue == "invalid_format") = 1 := by
  have h := claim_C10 nullEmailTable (by decide) (by decide)
    (5, [Value.int 2, Value.str "Ann", Value.str "Lee", Value.null,
         Value.str ""]) (by decide)
  exact ⟨h.1, h.2.1 (by decide) (Or.inl rfl), h.2.2 (by decide) (Or.inr rfl)⟩

/-- Claim C6: every validator is total — under the explicit raise-semantics
model, each returns `ok` of its Boolean verdict on every input value (no
exception escapes). -/
theorem claim_C6 (v : Value) (now : Int) :
    validate_email_exc v = Except.ok (validate_email v) ∧
    validate_phone_exc v = Except.ok (validate_phone v) ∧
    validate_price_exc v = Except.ok (validate_price v) ∧
    validate_quantity_exc v = Except.ok (validate_quantity v) ∧
    validate_date_exc now v = Except.ok (validate_date now v) ∧
    validate_order_status_exc v = Except.ok (validate_order_status v) := by
  refine ⟨rfl, rfl, ?_, ?_, ?_, rfl⟩
  · cases v with
    | null => rfl
    | int n => rfl
    | str s =>
      simp only [validate_price_exc, validate_price, isna, pyFloat, pyTryCatch]
      cases h : s.toInt? <;> simp [h, pyTryCatch, Except.map]
  · cases v with
    | null => rfl
    | int n => rfl
    | str s =>
      simp only [validate_quantity_exc, validate_quantity, isna, pyInt,
        pyTryCatch]
      cases h : s.toInt? <;> simp [h, pyTryCatch, Except.map]
  · cases v with
    | null => rfl
    | int n => rfl
    | str s =>
      by_cases hs : s = ""
      · subst hs
        rfl
      · simp only [validate_date_exc, validate_date, isna, pdToDatetime,
          pyTryCatch]
        cases h : s.toInt? <;> simp [h, pyTryCatch, Except.map, hs]

/-- A file system whose customers file lacks the loader-required 'email'
column while all four files are present and readable. -/
def fsMissingEmailCol : String → Option Table := fun name =>
  if name = "raw_customers.csv" then
    some ⟨["customer_id", "first_name", "last_name"],
          [(0, [Value.int 1, Value.str "Jo", Value.str "Smith"])]⟩
  else if name = "raw_products.csv" then
    some ⟨["product_id", "product_name", "category", "price"],
          [(0, [Value.int 10, Value.str "Widget", Value.str "c",
                Value.int 5])]⟩
  else if name = "raw_orders.csv" then
    some ⟨["order_id", "customer_id", "order_date", "total_amount",
           "order_status"], []⟩
  else if name = "raw_order_items.csv" then
    some ⟨["order_item_id", "order_id", "product_id", "quantity",
           "price_per_unit"], []⟩
  else none

/-- Counterexample to C1: the customers dataset is missing the required
'email' column — a load failure per the claim — yet `validate_required_columns`
is false, every loaded frame is present (not None), and the pipeline does NOT
abort: it runs to completion and produces cleaned output.  (Every frame of
`fsMissingEmailCol` does contain all the columns its cleaner accesses
unconditionally — 'email' is consulted only behind an `if 'email' in
df_clean.columns` guard — so the real run indeed completes here and the
model is faithful at this input.) -/
theorem claim_C1_counterexample :
    "email" ∈ customersRequiredCols ∧
    validate_required_columns (fsMissingEmailCol "raw_customers.csv")
      customersRequiredCols = false ∧
    (load_all_datasets fsMissingEmailCol).customers.isSome = true ∧
    (load_all_datasets fsMissingEmailCol).products.isSome = true ∧
    (load_all_datasets fsMissingEmailCol).orders.isSome = true ∧
    (load_all_datasets fsMissingEmailCol).order_items.isSome = true ∧
    (pipeline_run fsMissingEmailCol 100).isSome = true :=
  ⟨by decide, by decide, rfl, rfl, rfl, rfl, rfl⟩

/-- Claim C1 amended: on runs where every loaded frame contains the columns
its cleaner accesses unconditionally (otherwise the source raises `KeyError`
mid-cleaning and produces no cleaned output at all, rather than aborting at
the load stage), the orchestrator aborts — produces no result, hence no
cleaned tables — exactly when some raw dataset file is missing or unreadable
(the loader returned None for it).  A dataset that loads but lacks a
required column that the cleaners access only conditionally, such as
customers without 'email', does NOT abort the run: the loader logs that
failure, discards the check result, and cleaning completes. -/
theorem claim_C1_amended (fs : String → Option Table) (now : Int)
    (hc : ∀ t : Table, fs "raw_customers.csv" = some t →
      customersAccessedCols ⊆ t.cols)
    (hp : ∀ t : Table, fs "raw_products.csv" = some t →
      productsAccessedCols ⊆ t.cols)
    (ho : ∀ t : Table, fs "raw_orders.csv" = some t →
      ordersAccessedCols ⊆ t.cols)
    (hoi : ∀ t : Table, fs "raw_order_items.csv" = some t →
      itemsAccessedCols ⊆ t.cols) :
    pipeline_run fs now = none ↔
      (fs "raw_customers.csv" = none ∨ fs "raw_products.csv" = none ∨
        fs "raw_orders.csv" = none ∨ fs "raw_order_items.csv" = none) := by
  rw [pipeline_run]
  cases h1 : fs "raw_customers.csv" <;>
    cases h2 : fs "raw_products.csv" <;>
      cases h3 : fs "raw_orders.csv" <;>
        cases h4 : fs "raw_order_items.csv" <;>
          simp [load_all_datasets, h1, h2, h3, h4]

/-- Witness for the amended C1: at the concrete file system whose customers
frame lacks only the conditionally-accessed 'email' column, the hypotheses
hold and the run does not abort (no file is None). -/
theorem claim_C1_witness :
    pipeline_run fsMissingEmailCol 100 = none ↔
      (fsMissingEmailCol "raw_customers.csv" = none ∨
        fsMissingEmailCol "raw_products.csv" = none ∨
        fsMissingEmailCol "raw_orders.csv" = none ∨
        fsMissingEmailCol "raw_order_items.csv" = none) := by
  refine claim_C1_amended fsMissingEmailCol 100 ?_ ?_ ?_ ?_
  · intro t ht
    have heq : fsMissingEmailCol "raw_customers.csv" =
        some (⟨["customer_id", "first_name", "last_name"],
          [(0, [Value.int 1, Value.str "Jo", Value.str "Smith"])]⟩ :
            Table) := by decide
    rw [heq] at ht
    rw [← Option.some.inj ht]
    decide
  · intro t ht
    have heq : fsMissingEmailCol "raw_products.csv" =
        some (⟨["product_id", "product_name", "category", "price"],
          [(0, [Value.int 10, Value.str "Widget", Value.str "c",
                Value.int 5])]⟩ : Table) := by decide
    rw [heq] at ht
    rw [← Option.some.inj ht]
    decide
  · intro t ht
    have heq : fsMissingEmailCol "raw_orders.csv" =
        some (⟨["order_id", "customer_id", "order_date", "total_amount",
          "order_status"], []⟩ : Table) := by decide
    rw [heq] at ht
    rw [← Option.some.inj ht]
    decide
  · intro t ht
    have heq : fsMissingEmailCol "raw_order_items.csv" =
        some (⟨["order_item_id", "order_id", "product_id", "quantity",
          "price_per_unit"], []⟩ : Table) := by decide
    rw [heq] at ht
    rw [← Option.some.inj ht]
    decide

theorem clean_orders_customer_fk (df customers_df : Table) (now : Int)
    (r : Nat × List Value)
    (hr : r ∈ (clean_orders df customers_df now).1.rows) :
    getCell df.cols r.2 "customer_id" ∈ tableIds customers_df "customer_id" := by
  have hr5 : r ∈ ordersStep5 df customers_df now := hr
  rw [ordersStep5] at hr5
  have h4 := mem_of_mem_dropDupsBy hr5
  rw [ordersStep4] at h4
  exact of_decide_eq_true (List.mem_filter.mp h4).2

theorem clean_order_items_fks (df orders_df products_df : Table)
    (r : Nat × List Value)
    (hr : r ∈ (clean_order_items df orders_df products_df).1.rows) :
    getCell df.cols r.2 "order_id" ∈ tableIds orders_df "order_id" ∧
    getCell df.cols r.2 "product_id" ∈ tableIds products_df "product_id" := by
  have hr4 : r ∈ itemsStep4 df orders_df products_df := hr
  rw [itemsStep4] at hr4
  obtain ⟨hr3, hpid⟩ := List.mem_filter.mp hr4
  rw [itemsStep3] at hr3
  obtain ⟨_, hoid⟩ := List.mem_filter.mp hr3
  exact ⟨of_decide_eq_true hoid, of_decide_eq_true hpid⟩

/-- Claim C3: referential closure of the pipeline output — every surviving
order's customer_id is among the cleaned customers' ids, and every surviving
order item's order_id / product_id are among the cleaned orders' / cleaned
products' ids. -/
theorem claim_C3 (c p o oi : Table) (now : Int)
    (hc : customersAccessedCols ⊆ c.cols) (hp : productsAccessedCols ⊆ p.cols)
    (ho : ordersAccessedCols ⊆ o.cols) (hoi : itemsAccessedCols ⊆ oi.cols)
    (hcid : "customer_id" ∈ c.cols) :
    (∀ r ∈ (pipeline_clean c p o oi now).orders.rows,
      getCell (pipeline_clean c p o oi now).orders.cols r.2 "customer_id" ∈
        tableIds (pipeline_clean c p o oi now).customers "customer_id") ∧
    (∀ r ∈ (pipeline_clean c p o oi now).order_items.rows,
      getCell (pipeline_clean c p o oi now).order_items.cols r.2 "order_id" ∈
        tableIds (pipeline_clean c p o oi now).orders "order_id" ∧
      getCell (pipeline_clean c p o oi now).order_items.cols r.2 "product_id" ∈
        tableIds (pipeline_clean c p o oi now).products "product_id") := by
  constructor
  · intro r hr
    exact clean_orders_customer_fk o (clean_customers c).1 now r hr
  · intro r hr
    exact clean_order_items_fks oi (clean_orders o (clean_customers c).1 now).1
      (clean_products p).1 r hr

/-- A well-formed one-row customers table for witnesses. -/
def wCust : Table :=
  ⟨["customer_id", "first_name", "last_name", "email", "phone"],
   [(0, [Value.int 1, Value.str "A", Value.str "B", Value.str "a@b.co",
         Value.str "1234567890"])]⟩

/-- A well-formed one-row products table for witnesses. -/
def wProd : Table :=
  ⟨["product_id", "product_name", "category", "price", "stock_quantity"],
   [(0, [Value.int 10, Value.str "W", Value.str "c", Value.int 5,
         Value.int 3])]⟩

/-- A well-formed one-row orders table for witnesses (order 100 placed by
customer 1 at time 50). -/
def wOrd : Table :=
  ⟨["order_id", "customer_id", "order_date", "total_amount", "order_status"],
   [(0, [Value.int 100, Value.int 1, Value.int 50, Value.int 20,
         Value.str "Pending"])]⟩

/-- A well-formed one-row order-items table for witnesses (item of order 100
for product 10). -/
def wItem : Table :=
  ⟨["order_item_id", "order_id", "product_id", "quantity", "price_per_unit"],
   [(0, [Value.int 1000, Value.int 100, Value.int 10, Value.int 2,
         Value.int 5])]⟩

/-- Witness for C3 on a concrete pipeline run at time 100. -/
theorem claim_C3_witness :
    (∀ r ∈ (pipeline_clean wCust wProd wOrd wItem 100).orders.rows,
      getCell (pipeline_clean wCust wProd wOrd wItem 100).orders.cols r.2
          "customer_id" ∈
        tableIds (pipeline_clean wCust wProd wOrd wItem 100).customers
          "customer_id") ∧
    (∀ r ∈ (pipeline_clean wCust wProd wOrd wItem 100).order_items.rows,
      getCell (pipeline_clean wCust wProd wOrd wItem 100).order_items.cols r.2
          "order_id" ∈
        tableIds (pipeline_clean wCust wProd wOrd wItem 100).orders
          "order_id" ∧
      getCell (pipeline_clean wCust wProd wOrd wItem 100).order_items.cols r.2
          "product_id" ∈
        tableIds (pipeline_clean wCust wProd wOrd wItem 100).products
          "product_id") :=
  claim_C3 wCust wProd wOrd wItem 100 (by decide) (by decide) (by decide)
    (by decide) (by decide)

/-- Customers input whose two rows have distinct ids "A " and "A" that the
final whitespace-trim collapses into equal ids. -/
def trimCollideCust : Table :=
  ⟨["customer_id", "first_name", "last_name"],
   [(0, [Value.str "A ", Value.str "x", Value.str "y"]),
    (1, [Value.str "A", Value.str "x", Value.str "y"])]⟩

/-- Counterexample to C4: after cleaning `trimCollideCust`, the customer_id
column holds the repeated value "A" twice — the cleaned customers table is
not id-unique, because the trim step runs after id-deduplication. -/
theorem claim_C4_counterexample :
    ((clean_customers trimCollideCust).1.rows.map
        (fun r => getCell trimCollideCust.cols r.2 "customer_id")) =
      [Value.str "A", Value.str "A"] ∧
    ¬ ((clean_customers trimCollideCust).1.rows.map
        (fun r => getCell trimCollideCust.cols r.2 "customer_id")).Nodup := by
  constructor
  · decide
  · decide

/-- Claim C4 amended: cleaned products and orders always have a duplicate-free
id column and keep the first-encountered row among the rows present at the
duplicate-removal step; cleaned customers satisfy the same provided
whitespace-trimming leaves every customer_id unchanged (trimming runs after
id-deduplication and can otherwise collapse distinct ids into duplicates). -/
theorem claim_C4_amended :
    (∀ df : Table, productsAccessedCols ⊆ df.cols →
      ((clean_products df).1.rows.map
        (fun r => getCell df.cols r.2 "product_id")).Nodup ∧
      ∀ r ∈ (clean_products df).1.rows,
        (productsStep3 df).find? (fun x =>
          getCell df.cols x.2 "product_id" ==
            getCell df.cols r.2 "product_id") = some r) ∧
    (∀ (df customers_df : Table) (now : Int), ordersAccessedCols ⊆ df.cols →
      ((clean_orders df customers_df now).1.rows.map
        (fun r => getCell df.cols r.2 "order_id")).Nodup ∧
      ∀ r ∈ (clean_orders df customers_df now).1.rows,
        (ordersStep4 df customers_df now).find? (fun x =>
          getCell df.cols x.2 "order_id" ==
            getCell df.cols r.2 "order_id") = some r) ∧
    (∀ df : Table, customersAccessedCols ⊆ df.cols →
      (∀ r ∈ df.rows, trimValue (getCell df.cols r.2 "customer_id") =
        getCell df.cols r.2 "customer_id") →
      ((clean_customers df).1.rows.map
        (fun r => getCell df.cols r.2 "customer_id")).Nodup ∧
      ∀ r ∈ customersStep2 df,
        (customersStep1 df).find? (fun x =>
          getCell df.cols x.2 "customer_id" ==
            getCell df.cols r.2 "customer_id") = some r) := by
  refine ⟨?_, ?_, ?_⟩
  · intro df _
    refine ⟨?_, ?_⟩
    · exact nodup_keys_dropDupsBy
        (fun r => getCell df.cols r.2 "product_id") (productsStep3 df) []
    · intro r hr
      exact find?_dropDupsBy (fun x => getCell df.cols x.2 "product_id")
        (productsStep3 df) [] r hr
  · intro df customers_df now _
    refine ⟨?_, ?_⟩
    · exact nodup_keys_dropDupsBy
        (fun r => getCell df.cols r.2 "order_id")
        (ordersStep4 df customers_df now) []
    · intro r hr
      exact find?_dropDupsBy (fun x => getCell df.cols x.2 "order_id")
        (ordersStep4 df customers_df now) [] r hr
  · intro df _ htrim
    constructor
    · have hmap : (clean_customers df).1.rows.map
          (fun r => getCell df.cols r.2 "customer_id") =
          (customersStep3 df).map
            (fun r => getCell df.cols r.2 "customer_id") := by
        have h1 : (clean_customers df).1.rows =
            (customersStep3 df).map
              (fun r => (r.1, stripRow df df.cols r.2)) := rfl
        rw [h1, List.map_map]
        apply List.map_congr_left
        intro a ha
        have hadf : a ∈ df.rows := customersStep3_sublist df |>.subset ha
        show getCell df.cols (stripRow df df.cols a.2) "customer_id" =
          getCell df.cols a.2 "customer_id"
        rw [getCell_stripRow, stripCell]
        by_cases h : isStrCol df "customer_id"
        · rw [if_pos h]
          exact htrim a hadf
        · rw [if_neg h]
      rw [hmap]
      have hnd2 : ((customersStep2 df).map
          (fun r => getCell df.cols r.2 "customer_id")).Nodup :=
        nodup_keys_dropDupsBy _ (customersStep1 df) []
      exact hnd2.sublist ((List.filter_sublist _).map _)
    · intro r hr
      exact find?_dropDupsBy (fun x => getCell df.cols x.2 "customer_id")
        (customersStep1 df) [] r hr

/-- Witness for the amended C4 at concrete tables with duplicate ids: two
products sharing id 10 and two orders sharing id 5 (Scenario D), plus a
customers table with trim-stable ids. -/
def dupProd : Table :=
  ⟨["product_id", "product_name", "category", "price", "stock_quantity"],
   [(0, [Value.int 10, Value.str "W", Value.str "c", Value.int 5,
         Value.int 3]),
    (1, [Value.int 10, Value.str "V", Value.str "c", Value.int 7,
         Value.int 4])]⟩

/-- Two orders sharing order_id 5 (Scenario D). -/
def dupOrd : Table :=
  ⟨["order_id", "customer_id", "order_date", "total_amount", "order_status"],
   [(0, [Value.int 5, Value.int 1, Value.int 50, Value.int 20,
         Value.str "Pending"]),
    (1, [Value.int 5, Value.int 1, Value.int 60, Value.int 30,
         Value.str "Completed"])]⟩

/-- Witness for C4 amended: id uniqueness holds on the cleaned duplicate-id
products and orders tables, and on a trim-stable customers table. -/
theorem claim_C4_witness :
    ((clean_products dupProd).1.rows.map
      (fun r => getCell dupProd.cols r.2 "product_id")).Nodup ∧
    ((clean_orders dupOrd wCust 100).1.rows.map
      (fun r => getCell dupOrd.cols r.2 "order_id")).Nodup ∧
    ((clean_customers wCust).1.rows.map
      (fun r => getCell wCust.cols r.2 "customer_id")).Nodup :=
  ⟨(claim_C4_amended.1 dupProd (by decide)).1,
   (claim_C4_amended.2.1 dupOrd wCust 100 (by decide)).1,
   (claim_C4_amended.2.2 wCust (by decide) (by decide)).1⟩

/-- The claim's reading of `stock_quantity ≥ 0` on a cell, as pandas would
evaluate it (`NaN ≥ 0` is False, a string is not `≥ 0`). -/
def valueGe0 : Value → Bool
  | Value.int n => decide (0 ≤ n)
  | _ => false

/-- Products input whose single row has a null stock_quantity. -/
def nullStockProd : Table :=
  ⟨["product_id", "product_name", "category", "price", "stock_quantity"],
   [(0, [Value.int 10, Value.str "W", Value.str "c", Value.int 5,
         Value.null])]⟩

/-- Counterexample to C7: a product with null stock_quantity survives
cleaning with the null intact (the clamp mask `< 0` is False on NaN), so the
surviving row does not satisfy `stock_quantity ≥ 0`. -/
theorem claim_C7_counterexample :
    (0, [Value.int 10, Value.str "W", Value.str "c", Value.int 5, Value.null])
      ∈ (clean_products nullStockProd).1.rows ∧
    valueGe0 (getCell nullStockProd.cols
      [Value.int 10, Value.str "W", Value.str "c", Value.int 5, Value.null]
      "stock_quantity") = false := by
  constructor
  · decide
  · decide

/-- Claim C7 amended: every surviving product row whose stock_quantity is a
number has it ≥ 0 (null stock survives unchanged and is not `≥ 0`); the
clamp step removes no rows; and when the stock_quantity column is present the
repair is counted under negative_stock_fixed. -/
theorem claim_C7_amended (df : Table) (hacc : productsAccessedCols ⊆ df.cols) :
    (∀ r ∈ (clean_products df).1.rows, ∀ n : Int,
      getCell df.cols r.2 "stock_quantity" = Value.int n → 0 ≤ n) ∧
    (productsStep3 df).length = (productsStep2 df).length ∧
    ("stock_quantity" ∈ df.cols →
      (⟨"products", "negative_stock_fixed",
        (productsStep2 df).countP (fun r =>
          cellLt0 (getCell df.cols r.2 "stock_quantity"))⟩ : CleanLogEntry)
        ∈ (clean_products df).2) := by
  refine ⟨?_, ?_, ?_⟩
  · intro r hr n hn
    have hr3 : r ∈ productsStep3 df := by
      have hr4 : r ∈ productsStep4 df := hr
      rw [productsStep4] at hr4
      exact mem_of_mem_dropDupsBy hr4
    rw [productsStep3] at hr3
    by_cases hst : "stock_quantity" ∈ df.cols
    · rw [if_pos hst] at hr3
      obtain ⟨s, _, rfl⟩ := List.mem_map.mp hr3
      rw [show ((s.1, clampRow df.cols s.2) : Nat × List Value).2 =
          clampRow df.cols s.2 from rfl, getCell_clampRow] at hn
      exact clampCell_stock_int_nonneg _ n hn
    · rw [getCell_not_mem df.cols r.2 "stock_quantity" hst] at hn
      exact absurd hn (by simp)
  · rw [productsStep3]
    by_cases hst : "stock_quantity" ∈ df.cols
    · rw [if_pos hst]
      exact List.length_map _ _
    · rw [if_neg hst]
  · intro hst
    simp [clean_products, hst]

/-- Products input with a negative stock (Scenario E). -/
def negStockProd : Table :=
  ⟨["product_id", "product_name", "category", "price", "stock_quantity"],
   [(0, [Value.int 10, Value.str "W", Value.str "c", Value.int 5,
         Value.int (-3)])]⟩

/-- Witness for the amended C7 at the negative-stock product table. -/
theorem claim_C7_witness :
    (∀ r ∈ (clean_products negStockProd).1.rows, ∀ n : Int,
      getCell negStockProd.cols r.2 "stock_quantity" = Value.int n → 0 ≤ n) ∧
    (productsStep3 negStockProd).length =
      (productsStep2 negStockProd).length ∧
    ("stock_quantity" ∈ negStockProd.cols →
      (⟨"products", "negative_stock_fixed",
        (productsStep2 negStockProd).countP (fun r =>
          cellLt0 (getCell negStockProd.cols r.2 "stock_quantity"))⟩ :
            CleanLogEntry)
        ∈ (clean_products negStockProd).2) :=
  claim_C7_amended negStockProd (by decide)

/-- Products input without a stock_quantity column (the loader does not
require that column). -/
def noStockProd : Table :=
  ⟨["product_id", "product_name", "category", "price"],
   [(0, [Value.int 10, Value.str "W", Value.str "c", Value.int 5])]⟩

/-- Counterexample to C9: when the stock_quantity column is absent,
clean_products emits only three log entries — no negative_stock_fixed entry
at all — so the per-dataset log shape is not fixed across runs. -/
theorem claim_C9_counterexample :
    ((clean_products noStockProd).2.map (fun e => e.action)) =
      ["missing_product_name", "invalid_price_removed",
       "duplicate_ids_removed"] ∧
    (∀ e ∈ (clean_products noStockProd).2,
      e.action ≠ "negative_stock_fixed") := by
  constructor
  · decide
  · decide

/-- Claim C9 amended: every rule that executes appends exactly one log entry
even when rows_affected = 0, so each cleaner's (dataset, action) sequence is
fixed — except that clean_products emits its negative_stock_fixed entry only
when the stock_quantity column is present. -/
theorem claim_C9_amended :
    (∀ df : Table, customersAccessedCols ⊆ df.cols →
      (clean_customers df).2.1.map (fun e => (e.dataset, e.action)) =
        [("customers", "duplicates_removed"),
         ("customers", "duplicate_ids_removed"),
         ("customers", "missing_critical_removed")]) ∧
    (∀ df : Table, productsAccessedCols ⊆ df.cols →
      (clean_products df).2.map (fun e => (e.dataset, e.action)) =
        (if "stock_quantity" ∈ df.cols then
          [("products", "missing_product_name"),
           ("products", "invalid_price_removed"),
           ("products", "negative_stock_fixed"),
           ("products", "duplicate_ids_removed")]
        else
          [("products", "missing_product_name"),
           ("products", "invalid_price_removed"),
           ("products", "duplicate_ids_removed")])) ∧
    (∀ (df customers_df : Table) (now : Int),
      ordersAccessedCols ⊆ df.cols → "customer_id" ∈ customers_df.cols →
      (clean_orders df customers_df now).2.map
          (fun e => (e.dataset, e.action)) =
        [("orders", "missing_order_date"), ("orders", "future_dates_removed"),
         ("orders", "invalid_status_removed"),
         ("orders", "orphaned_customer_id"),
         ("orders", "duplicate_ids_removed")]) ∧
    (∀ (df orders_df products_df : Table), itemsAccessedCols ⊆ df.cols →
      "order_id" ∈ orders_df.cols → "product_id" ∈ products_df.cols →
      (clean_order_items df orders_df products_df).2.map
          (fun e => (e.dataset, e.action)) =
        [("order_items", "invalid_quantity_removed"),
         ("order_items", "invalid_price_removed"),
         ("order_items", "orphaned_order_id"),
         ("order_items", "orphaned_product_id")]) := by
  refine ⟨fun df _ => rfl, ?_, fun df customers_df now _ _ => rfl,
    fun df orders_df products_df _ _ _ => rfl⟩
  intro df _
  by_cases hst : "stock_quantity" ∈ df.cols
  · rw [if_pos hst]
    simp [clean_products, hst]
  · rw [if_neg hst]
    simp [clean_products, hst]

/-- Witness for the amended C9: the fixed log shapes at concrete tables. -/
theorem claim_C9_witness :
    (clean_customers wCust).2.1.map (fun e => (e.dataset, e.action)) =
      [("customers", "duplicates_removed"),
       ("customers", "duplicate_ids_removed"),
       ("customers", "missing_critical_removed")] ∧
    (clean_products wProd).2.map (fun e => (e.dataset, e.action)) =
      (if "stock_quantity" ∈ wProd.cols then
        [("products", "missing_product_name"),
         ("products", "invalid_price_removed"),
         ("products", "negative_stock_fixed"),
         ("products", "duplicate_ids_removed")]
      else
        [("products", "missing_product_name"),
         ("products", "invalid_price_removed"),
         ("products", "duplicate_ids_removed")]) ∧
    (clean_orders wOrd wCust 100).2.map (fun e => (e.dataset, e.action)) =
      [("orders", "missing_order_date"), ("orders", "future_dates_removed"),
       ("orders", "invalid_status_removed"),
       ("orders", "orphaned_customer_id"),
       ("orders", "duplicate_ids_removed")] ∧
    (clean_order_items wItem wOrd wProd).2.map
        (fun e => (e.dataset, e.action)) =
      [("order_items", "invalid_quantity_removed"),
       ("order_items", "invalid_price_removed"),
       ("order_items", "orphaned_order_id"),
       ("order_items", "orphaned_product_id")] :=
  ⟨claim_C9_amended.1 wCust (by decide),
   claim_C9_amended.2.1 wProd (by decide),
   claim_C9_amended.2.2.1 wOrd wCust 100 (by decide) (by decide),
   claim_C9_amended.2.2.2 wItem wOrd wProd (by decide) (by decide)
     (by decide)⟩

/-- Sum of `rows_affected` over the removal-kind entries of a cleaning log
for one dataset (the repair action negative_stock_fixed is excluded). -/
def removalSum (log : List CleanLogEntry) (dataset : String) : Nat :=
  ((log.filter (fun e => e.dataset == dataset &&
    e.action != "negative_stock_fixed")).map (fun e => e.rows_affected)).sum

theorem productsStep3_length (df : Table) :
    (productsStep3 df).length = (productsStep2 df).length := by
  rw [productsStep3]
  by_cases hst : "stock_quantity" ∈ df.cols
  · rw [if_pos hst]
    exact List.length_map _ _
  · rw [if_neg hst]

theorem clean_customers_count_conservation (df : Table) :
    df.rows.length = (clean_customers df).1.rows.length +
      removalSum (clean_customers df).2.1 "customers" := by
  have h1 : (customersStep1 df).length ≤ df.rows.length :=
    length_dropDupsBy_le _ df.rows []
  have h2 : (customersStep2 df).length ≤ (customersStep1 df).length :=
    length_dropDupsBy_le _ (customersStep1 df) []
  have h3 : (customersStep3 df).length +
      (customersStep2 df).countP
        (fun r => missingAny df.cols customersCritical r.2) =
      (customersStep2 df).length :=
    length_filter_not_add_countP _ (customersStep2 df)
  have hlen : (clean_customers df).1.rows.length =
      (customersStep3 df).length := List.length_map _ _
  have hlog : (clean_customers df).2.1 =
      [⟨"customers", "duplicates_removed",
         df.rows.length - (customersStep1 df).length⟩,
       ⟨"customers", "duplicate_ids_removed",
         (customersStep1 df).length - (customersStep2 df).length⟩,
       ⟨"customers", "missing_critical_removed",
         (customersStep2 df).countP
           (fun r => missingAny df.cols customersCritical r.2)⟩] := rfl
  rw [hlog, hlen, removalSum]
  simp only [List.filter_cons, List.filter_nil]
  simp
  omega

theorem clean_products_count_conservation (df : Table) :
    df.rows.length = (clean_products df).1.rows.length +
      removalSum (clean_products df).2 "products" := by
  have hA : (productsStep1 df).length +
      df.rows.countP (fun r => isna (getCell df.cols r.2 "product_name")) =
      df.rows.length := length_filter_not_add_countP _ df.rows
  have hB : (productsStep2 df).length +
      (productsStep1 df).countP
        (fun r => !(validate_price (getCell df.cols r.2 "price"))) =
      (productsStep1 df).length :=
    length_filter_add_countP_not _ (productsStep1 df)
  have hC := productsStep3_length df
  have hD : (productsStep4 df).length ≤ (productsStep3 df).length :=
    length_dropDupsBy_le _ (productsStep3 df) []
  have hlen : (clean_products df).1.rows.length = (productsStep4 df).length :=
    rfl
  by_cases hst : "stock_quantity" ∈ df.cols
  · have hlog : (clean_products df).2 =
        [⟨"products", "missing_product_name",
           df.rows.countP (fun r => isna (getCell df.cols r.2 "product_name"))⟩,
         ⟨"products", "invalid_price_removed",
           (productsStep1 df).countP
             (fun r => !(validate_price (getCell df.cols r.2 "price")))⟩] ++
        [⟨"products", "negative_stock_fixed",
           (productsStep2 df).countP
             (fun r => cellLt0 (getCell df.cols r.2 "stock_quantity"))⟩] ++
        [⟨"products", "duplicate_ids_removed",
           (productsStep3 df).length - (productsStep4 df).length⟩] := by
      simp [clean_products, hst]
    rw [hlog, hlen, removalSum]
    simp only [List.filter_append, List.filter_cons, List.filter_nil]
    simp
    omega
  · have hlog : (clean_products df).2 =
        [⟨"products", "missing_product_name",
           df.rows.countP (fun r => isna (getCell df.cols r.2 "product_name"))⟩,
         ⟨"products", "invalid_price_removed",
           (productsStep1 df).countP
             (fun r => !(validate_price (getCell df.cols r.2 "price")))⟩] ++
        [] ++
        [⟨"products", "duplicate_ids_removed",
           (productsStep3 df).length - (productsStep4 df).length⟩] := by
      simp [clean_products, hst]
    rw [hlog, hlen, removalSum]
    simp only [List.filter_append, List.filter_cons, List.filter_nil]
    simp
    omega

theorem clean_orders_count_conservation (df customers_df : Table)
    (now : Int) :
    df.rows.length = (clean_orders df customers_df now).1.rows.length +
      removalSum (clean_orders df customers_df now).2 "orders" := by
  have hA : (ordersStep1 df).length +
      df.rows.countP (fun r => isna (getCell df.cols r.2 "order_date")) =
      df.rows.length := length_filter_not_add_countP _ df.rows
  have hB : (ordersStep2 df now).length +
      (ordersStep1 df).countP
        (fun r => !(validate_date now (getCell df.cols r.2 "order_date"))) =
      (ordersStep1 df).length :=
    length_filter_add_countP_not _ (ordersStep1 df)
  have hC : (ordersStep3 df now).length +
      (ordersStep2 df now).countP (fun r =>
        !(validate_order_status (getCell df.cols r.2 "order_status"))) =
      (ordersStep2 df now).length :=
    length_filter_add_countP_not _ (ordersStep2 df now)
  have hD : (ordersStep4 df customers_df now).length +
      (ordersStep3 df now).countP (fun r =>
        !(decide (getCell df.cols r.2 "customer_id" ∈
          tableIds customers_df "customer_id"))) =
      (ordersStep3 df now).length :=
    length_filter_add_countP_not _ (ordersStep3 df now)
  have hE : (ordersStep5 df customers_df now).length ≤
      (ordersStep4 df customers_df now).length :=
    length_dropDupsBy_le _ (ordersStep4 df customers_df now) []
  have hlen : (clean_orders df customers_df now).1.rows.length =
      (ordersStep5 df customers_df now).length := rfl
  have hlog : (clean_orders df customers_df now).2 =
      [⟨"orders", "missing_order_date",
         df.rows.countP (fun r => isna (getCell df.cols r.2 "order_date"))⟩,
       ⟨"orders", "future_dates_removed",
         (ordersStep1 df).countP (fun r =>
           !(validate_date now (getCell df.cols r.2 "order_date")))⟩,
       ⟨"orders", "invalid_status_removed",
         (ordersStep2 df now).countP (fun r =>
           !(validate_order_status (getCell df.cols r.2 "order_status")))⟩,
       ⟨"orders", "orphaned_customer_id",
         (ordersStep3 df now).countP (fun r =>
           !(decide (getCell df.cols r.2 "customer_id" ∈
             tableIds customers_df "customer_id")))⟩,
       ⟨"orders", "duplicate_ids_removed",
         (ordersStep4 df customers_df now).length -
           (ordersStep5 df customers_df now).length⟩] := rfl
  rw [hlog, hlen, removalSum]
  simp only [List.filter_cons, List.filter_nil]
  simp
  omega

theorem clean_order_items_count_conservation
    (df orders_df products_df : Table) :
    df.rows.length =
      (clean_order_items df orders_df products_df).1.rows.length +
      removalSum (clean_order_items df orders_df products_df).2
        "order_items" := by
  have hA : (itemsStep1 df).length + df.rows.countP
      (fun r => !(validate_quantity (getCell df.cols r.2 "quantity"))) =
      df.rows.length := length_filter_add_countP_not _ df.rows
  have hB : (itemsStep2 df).length + (itemsStep1 df).countP
      (fun r => !(validate_price (getCell df.cols r.2 "price_per_unit"))) =
      (itemsStep1 df).length :=
    length_filter_add_countP_not _ (itemsStep1 df)
  have hC : (itemsStep3 df orders_df).length + (itemsStep2 df).countP
      (fun r => !(decide (getCell df.cols r.2 "order_id" ∈
        tableIds orders_df "order_id"))) =
      (itemsStep2 df).length :=
    length_filter_add_countP_not _ (itemsStep2 df)
  have hD : (itemsStep4 df orders_df products_df).length +
      (itemsStep3 df orders_df).countP
        (fun r => !(decide (getCell df.cols r.2 "product_id" ∈
          tableIds products_df "product_id"))) =
      (itemsStep3 df orders_df).length :=
    length_filter_add_countP_not _ (itemsStep3 df orders_df)
  have hlen : (clean_order_items df orders_df products_df).1.rows.length =
      (itemsStep4 df orders_df products_df).length := rfl
  have hlog : (clean_order_items df orders_df products_df).2 =
      [⟨"order_items", "invalid_quantity_removed",
         df.rows.countP (fun r =>
           !(validate_quantity (getCell df.cols r.2 "quantity")))⟩,
       ⟨"order_items", "invalid_price_removed",
         (itemsStep1 df).countP (fun r =>
           !(validate_price (getCell df.cols r.2 "price_per_unit")))⟩,
       ⟨"order_items", "orphaned_order_id",
         (itemsStep2 df).countP (fun r =>
           !(decide (getCell df.cols r.2 "order_id" ∈
             tableIds orders_df "order_id")))⟩,
       ⟨"order_items", "orphaned_product_id",
         (itemsStep3 df orders_df).countP (fun r =>
           !(decide (getCell df.cols r.2 "product_id" ∈
             tableIds products_df "product_id")))⟩] := rfl
  rw [hlog, hlen, removalSum]
  simp only [List.filter_cons, List.filter_nil]
  simp
  omega

/-- Claim C5: count conservation — for every dataset and every input table,
the raw row count equals the cleaned row count plus the sum of rows_affected
over that dataset's removal-kind log entries (the negative_stock_fixed repair
entry is excluded from the sum). -/
theorem claim_C5 :
    (∀ df : Table, customersAccessedCols ⊆ df.cols →
      df.rows.length = (clean_customers df).1.rows.length +
        removalSum (clean_customers df).2.1 "customers") ∧
    (∀ df : Table, productsAccessedCols ⊆ df.cols →
      df.rows.length = (clean_products df).1.rows.length +
        removalSum (clean_products df).2 "products") ∧
    (∀ (df customers_df : Table) (now : Int),
      ordersAccessedCols ⊆ df.cols → "customer_id" ∈ customers_df.cols →
      df.rows.length = (clean_orders df customers_df now).1.rows.length +
        removalSum (clean_orders df customers_df now).2 "orders") ∧
    (∀ (df orders_df products_df : Table), itemsAccessedCols ⊆ df.cols →
      "order_id" ∈ orders_df.cols → "product_id" ∈ products_df.cols →
      df.rows.length =
        (clean_order_items df orders_df products_df).1.rows.length +
        removalSum (clean_order_items df orders_df products_df).2
          "order_items") :=
  ⟨fun df _ => clean_customers_count_conservation df,
   fun df _ => clean_products_count_conservation df,
   fun df customers_df now _ _ =>
     clean_orders_count_conservation df customers_df now,
   fun df orders_df products_df _ _ _ =>
     clean_order_items_count_conservation df orders_df products_df⟩

/-- Witness for C5 at concrete tables that actually lose rows (duplicate ids
in products and orders). -/
theorem claim_C5_witness :
    scenarioATable.rows.length =
      (clean_customers scenarioATable).1.rows.length +
        removalSum (clean_customers scenarioATable).2.1 "customers" ∧
    dupProd.rows.length = (clean_products dupProd).1.rows.length +
      removalSum (clean_products dupProd).2 "products" ∧
    dupOrd.rows.length = (clean_orders dupOrd wCust 100).1.rows.length +
      removalSum (clean_orders dupOrd wCust 100).2 "orders" ∧
    wItem.rows.length =
      (clean_order_items wItem wOrd wProd).1.rows.length +
        removalSum (clean_order_items wItem wOrd wProd).2 "order_items" :=
  ⟨claim_C5.1 scenarioATable (by decide),
   claim_C5.2.1 dupProd (by decide),
   claim_C5.2.2.1 dupOrd wCust 100 (by decide) (by decide),
   claim_C5.2.2.2 wItem wOrd wProd (by decide) (by decide) (by decide)⟩

/-- Customers input whose two distinct rows become identical after the trim
step (ids "B " and "B" with equal names). -/
def trimMergeCust : Table :=
  ⟨["customer_id", "first_name", "last_name"],
   [(0, [Value.str "B ", Value.str "x", Value.str "y"]),
    (1, [Value.str "B", Value.str "x", Value.str "y"])]⟩

/-- Counterexample to C8: cleaning `trimMergeCust` keeps both rows (made
identical by the trim), and re-cleaning that output removes one of them —
`clean_customers` is not idempotent. -/
theorem claim_C8_counterexample :
    (clean_customers trimMergeCust).1.rows.length = 2 ∧
    (clean_customers (clean_customers trimMergeCust).1).1.rows.length = 1 := by
  constructor
  · decide
  · decide

theorem clampCell_ne (c : String) (v : Value) (h : ¬ c = "stock_quantity") :
    clampCell c v = v := by
  simp [clampCell, h]

theorem clampRow_eq_self_of_not_mem (cols : List String) (vs : List Value)
    (h : "stock_quantity" ∉ cols) : clampRow cols vs = vs := by
  induction cols generalizing vs with
  | nil => cases vs <;> rfl
  | cons c0 cs ih =>
    cases vs with
    | nil => rfl
    | cons v vs =>
      rw [clampRow, clampCell_ne c0 v
        (fun hc => h (hc ▸ List.mem_cons_self c0 cs)),
        ih vs (fun hc => h (List.mem_cons_of_mem c0 hc))]

theorem clean_order_items_idem (df orders_df products_df : Table) :
    (clean_order_items (clean_order_items df orders_df products_df).1
        orders_df products_df).1 =
      (clean_order_items df orders_df products_df).1 := by
  have hprops : ∀ r ∈ itemsStep4 df orders_df products_df,
      validate_quantity (getCell df.cols r.2 "quantity") = true ∧
      validate_price (getCell df.cols r.2 "price_per_unit") = true ∧
      decide (getCell df.cols r.2 "order_id" ∈
        tableIds orders_df "order_id") = true ∧
      decide (getCell df.cols r.2 "product_id" ∈
        tableIds products_df "product_id") = true := by
    intro r hr
    rw [itemsStep4] at hr
    obtain ⟨hr3, h4⟩ := List.mem_filter.mp hr
    rw [itemsStep3] at hr3
    obtain ⟨hr2, h3⟩ := List.mem_filter.mp hr3
    rw [itemsStep2] at hr2
    obtain ⟨hr1, h2⟩ := List.mem_filter.mp hr2
    rw [itemsStep1] at hr1
    obtain ⟨_, h1⟩ := List.mem_filter.mp hr1
    exact ⟨h1, h2, h3, h4⟩
  have e1 : itemsStep1 (clean_order_items df orders_df products_df).1 =
      itemsStep4 df orders_df products_df := by
    rw [itemsStep1]
    exact List.filter_eq_self.mpr (fun r hr => (hprops r hr).1)
  have e2 : itemsStep2 (clean_order_items df orders_df products_df).1 =
      itemsStep4 df orders_df products_df := by
    rw [itemsStep2, e1]
    exact List.filter_eq_self.mpr (fun r hr => (hprops r hr).2.1)
  have e3 : itemsStep3 (clean_order_items df orders_df products_df).1
      orders_df = itemsStep4 df orders_df products_df := by
    rw [itemsStep3, e2]
    exact List.filter_eq_self.mpr (fun r hr => (hprops r hr).2.2.1)
  have e4 : itemsStep4 (clean_order_items df orders_df products_df).1
      orders_df products_df = itemsStep4 df orders_df products_df := by
    rw [itemsStep4, e3]
    exact List.filter_eq_self.mpr (fun r hr => (hprops r hr).2.2.2)
  show (⟨(clean_order_items df orders_df products_df).1.cols,
    itemsStep4 (clean_order_items df orders_df products_df).1 orders_df
      products_df⟩ : Table) = (clean_order_items df orders_df products_df).1
  rw [e4]
  rfl

theorem clean_orders_idem (df customers_df : Table) (now : Int) :
    (clean_orders (clean_orders df customers_df now).1 customers_df now).1 =
      (clean_orders df customers_df now).1 := by
  have hprops : ∀ r ∈ ordersStep5 df customers_df now,
      (!(isna (getCell df.cols r.2 "order_date"))) = true ∧
      validate_date now (getCell df.cols r.2 "order_date") = true ∧
      validate_order_status (getCell df.cols r.2 "order_status") = true ∧
      decide (getCell df.cols r.2 "customer_id" ∈
        tableIds customers_df "customer_id") = true := by
    intro r hr
    rw [ordersStep5] at hr
    have hr4 := mem_of_mem_dropDupsBy hr
    rw [ordersStep4] at hr4
    obtain ⟨hr3, h4⟩ := List.mem_filter.mp hr4
    rw [ordersStep3] at hr3
    obtain ⟨hr2, h3⟩ := List.mem_filter.mp hr3
    rw [ordersStep2] at hr2
    obtain ⟨hr1, h2⟩ := List.mem_filter.mp hr2
    rw [ordersStep1] at hr1
    obtain ⟨_, h1⟩ := List.mem_filter.mp hr1
    exact ⟨h1, h2, h3, h4⟩
  have hnd : ((ordersStep5 df customers_df now).map
      (fun r => getCell df.cols r.2 "order_id")).Nodup := by
    rw [ordersStep5]
    exact nodup_keys_dropDupsBy _ _ []
  have e1 : ordersStep1 (clean_orders df customers_df now).1 =
      ordersStep5 df customers_df now := by
    rw [ordersStep1]
    exact List.filter_eq_self.mpr (fun r hr => (hprops r hr).1)
  have e2 : ordersStep2 (clean_orders df customers_df now).1 now =
      ordersStep5 df customers_df now := by
    rw [ordersStep2, e1]
    exact List.filter_eq_self.mpr (fun r hr => (hprops r hr).2.1)
  have e3 : ordersStep3 (clean_orders df customers_df now).1 now =
      ordersStep5 df customers_df now := by
    rw [ordersStep3, e2]
    exact List.filter_eq_self.mpr (fun r hr => (hprops r hr).2.2.1)
  have e4 : ordersStep4 (clean_orders df customers_df now).1 customers_df
      now = ordersStep5 df customers_df now := by
    rw [ordersStep4, e3]
    exact List.filter_eq_self.mpr (fun r hr => (hprops r hr).2.2.2)
  have e5 : ordersStep5 (clean_orders df customers_df now).1 customers_df
      now = ordersStep5 df customers_df now := by
    rw [ordersStep5, e4]
    exact dropDupsBy_eq_self _ _ [] hnd (fun r _ => List.not_mem_nil _)
  show (⟨(clean_orders df customers_df now).1.cols,
    ordersStep5 (clean_orders df customers_df now).1 customers_df now⟩ :
      Table) = (clean_orders df customers_df now).1
  rw [e5]
  rfl

theorem clean_products_idem (df : Table) :
    (clean_products (clean_products df).1).1 = (clean_products df).1 := by
  have hstep3 : ∀ r ∈ productsStep3 df,
      (!(isna (getCell df.cols r.2 "product_name"))) = true ∧
      validate_price (getCell df.cols r.2 "price") = true ∧
      clampRow df.cols r.2 = r.2 := by
    intro r hr
    rw [productsStep3] at hr
    by_cases hst : "stock_quantity" ∈ df.cols
    · rw [if_pos hst] at hr
      obtain ⟨s, hs, rfl⟩ := List.mem_map.mp hr
      rw [productsStep2] at hs
      obtain ⟨hs1, h2⟩ := List.mem_filter.mp hs
      rw [productsStep1] at hs1
      obtain ⟨_, h1⟩ := List.mem_filter.mp hs1
      refine ⟨?_, ?_, ?_⟩
      · show (!(isna (getCell df.cols (clampRow df.cols s.2)
          "product_name"))) = true
        rw [getCell_clampRow, clampCell_ne _ _ (by decide)]
        exact h1
      · show validate_price (getCell df.cols (clampRow df.cols s.2)
          "price") = true
        rw [getCell_clampRow, clampCell_ne _ _ (by decide)]
        exact h2
      · show clampRow df.cols (clampRow df.cols s.2) = clampRow df.cols s.2
        exact clampRow_clampRow df.cols s.2
    · rw [if_neg hst] at hr
      rw [productsStep2] at hr
      obtain ⟨hs1, h2⟩ := List.mem_filter.mp hr
      rw [productsStep1] at hs1
      obtain ⟨_, h1⟩ := List.mem_filter.mp hs1
      exact ⟨h1, h2, clampRow_eq_self_of_not_mem df.cols r.2 hst⟩
  have hprops : ∀ r ∈ productsStep4 df,
      (!(isna (getCell df.cols r.2 "product_name"))) = true ∧
      validate_price (getCell df.cols r.2 "price") = true ∧
      clampRow df.cols r.2 = r.2 := by
    intro r hr
    rw [productsStep4] at hr
    exact hstep3 r (mem_of_mem_dropDupsBy hr)
  have hnd : ((productsStep4 df).map
      (fun r => getCell df.cols r.2 "product_id")).Nodup := by
    rw [productsStep4]
    exact nodup_keys_dropDupsBy _ _ []
  have e1 : productsStep1 (clean_products df).1 = productsStep4 df := by
    rw [productsStep1]
    exact List.filter_eq_self.mpr (fun r hr => (hprops r hr).1)
  have e2 : productsStep2 (clean_products df).1 = productsStep4 df := by
    rw [productsStep2, e1]
    exact List.filter_eq_self.mpr (fun r hr => (hprops r hr).2.1)
  have e3 : productsStep3 (clean_products df).1 = productsStep4 df := by
    rw [productsStep3, e2]
    show (if "stock_quantity" ∈ df.cols then
        (productsStep4 df).map (fun r => (r.1, clampRow df.cols r.2))
      else productsStep4 df) = productsStep4 df
    by_cases hst : "stock_quantity" ∈ df.cols
    · rw [if_pos hst]
      apply map_eq_self_of
      intro r hr
      rw [(hprops r hr).2.2]
    · rw [if_neg hst]
  have e4 : productsStep4 (clean_products df).1 = productsStep4 df := by
    rw [productsStep4, e3]
    exact dropDupsBy_eq_self _ _ [] hnd (fun r _ => List.not_mem_nil _)
  show (⟨(clean_products df).1.cols,
    productsStep4 (clean_products df).1⟩ : Table) = (clean_products df).1
  rw [e4]
  rfl

theorem clean_customers_idem (df : Table)
    (h1 : ((clean_customers df).1.rows.map Prod.snd).Nodup)
    (h2 : ((clean_customers df).1.rows.map
      (fun r => getCell df.cols r.2 "customer_id")).Nodup)
    (h3 : ∀ c, isStrCol (clean_customers df).1 c = isStrCol df c) :
    (clean_customers (clean_customers df).1).1 = (clean_customers df).1 := by
  have e1 : customersStep1 (clean_customers df).1 =
      (clean_customers df).1.rows := by
    rw [customersStep1]
    exact dropDupsBy_eq_self _ _ [] h1 (fun r _ => List.not_mem_nil _)
  have e2 : customersStep2 (clean_customers df).1 =
      (clean_customers df).1.rows := by
    rw [customersStep2, e1]
    exact dropDupsBy_eq_self _ _ [] h2 (fun r _ => List.not_mem_nil _)
  have hmiss : ∀ r ∈ (clean_customers df).1.rows,
      (!(missingAny df.cols customersCritical r.2)) = true := by
    intro r hr
    have hr2 : r ∈ (customersStep3 df).map
        (fun s => (s.1, stripRow df df.cols s.2)) := hr
    obtain ⟨s, hs, rfl⟩ := List.mem_map.mp hr2
    rw [customersStep3] at hs
    obtain ⟨_, hmiss0⟩ := List.mem_filter.mp hs
    show (!(missingAny df.cols customersCritical
      (stripRow df df.cols s.2))) = true
    have heq : missingAny df.cols customersCritical
        (stripRow df df.cols s.2) =
        missingAny df.cols customersCritical s.2 := by
      rw [missingAny, missingAny]
      simp only [getCell_stripRow, isna_stripCell]
    rw [heq]
    exact hmiss0
  have e3 : customersStep3 (clean_customers df).1 =
      (clean_customers df).1.rows := by
    rw [customersStep3, e2]
    exact List.filter_eq_self.mpr hmiss
  have e4 : ((clean_customers df).1.rows).map
      (fun r => (r.1, stripRow (clean_customers df).1
        (clean_customers df).1.cols r.2)) =
      (clean_customers df).1.rows := by
    apply map_eq_self_of
    intro r hr
    have hr2 : r ∈ (customersStep3 df).map
        (fun s => (s.1, stripRow df df.cols s.2)) := hr
    obtain ⟨s, hs, rfl⟩ := List.mem_map.mp hr2
    show ((s.1 : Nat), stripRow (clean_customers df).1 df.cols
      (stripRow df df.cols s.2)) = (s.1, stripRow df df.cols s.2)
    rw [stripRow_stripRow df (clean_customers df).1 h3]
  show (⟨(clean_customers df).1.cols,
    (customersStep3 (clean_customers df).1).map
      (fun r => (r.1, stripRow (clean_customers df).1
        (clean_customers df).1.cols r.2))⟩ : Table) =
    (clean_customers df).1
  rw [e3, e4]

/-- Claim C8 amended: cleaning an already-cleaned table again yields the
identical table for products, orders (fixed reference time and parent) and
order items unconditionally; for customers this holds provided the
whitespace-trim has not collapsed previously distinct rows or customer_ids
(and the object-dtype column set is unchanged, as it is for an in-memory
pandas frame) — trimming can otherwise make re-cleaning remove further
rows. -/
theorem claim_C8_amended :
    (∀ df : Table, productsAccessedCols ⊆ df.cols →
      (clean_products (clean_products df).1).1 = (clean_products df).1) ∧
    (∀ (df customers_df : Table) (now : Int), ordersAccessedCols ⊆ df.cols →
      "customer_id" ∈ customers_df.cols →
      (clean_orders (clean_orders df customers_df now).1 customers_df
        now).1 = (clean_orders df customers_df now).1) ∧
    (∀ (df orders_df products_df : Table), itemsAccessedCols ⊆ df.cols →
      "order_id" ∈ orders_df.cols → "product_id" ∈ products_df.cols →
      (clean_order_items (clean_order_items df orders_df products_df).1
        orders_df products_df).1 =
        (clean_order_items df orders_df products_df).1) ∧
    (∀ df : Table, customersAccessedCols ⊆ df.cols →
      ((clean_customers df).1.rows.map Prod.snd).Nodup →
      ((clean_customers df).1.rows.map
        (fun r => getCell df.cols r.2 "customer_id")).Nodup →
      (∀ c, isStrCol (clean_customers df).1 c = isStrCol df c) →
      (clean_customers (clean_customers df).1).1 = (clean_customers df).1) :=
  ⟨fun df _ => clean_products_idem df,
   fun df customers_df now _ _ => clean_orders_idem df customers_df now,
   fun df orders_df products_df _ _ _ =>
     clean_order_items_idem df orders_df products_df,
   fun df _ => clean_customers_idem df⟩

/-- Witness for the amended C8 at concrete tables. -/
theorem claim_C8_witness :
    (clean_products (clean_products wProd).1).1 = (clean_products wProd).1 ∧
    (clean_orders (clean_orders wOrd wCust 100).1 wCust 100).1 =
      (clean_orders wOrd wCust 100).1 ∧
    (clean_order_items (clean_order_items wItem wOrd wProd).1 wOrd
      wProd).1 = (clean_order_items wItem wOrd wProd).1 ∧
    (clean_customers (clean_customers wCust).1).1 =
      (clean_customers wCust).1 := by
  have hT : (clean_customers wCust).1 = wCust := by decide
  exact ⟨claim_C8_amended.1 wProd (by decide),
    claim_C8_amended.2.1 wOrd wCust 100 (by decide) (by decide),
    claim_C8_amended.2.2.1 wItem wOrd wProd (by decide) (by decide)
      (by decide),
    claim_C8_amended.2.2.2 wCust (by decide) (by decide) (by decide)
      (fun c => by rw [hT])⟩
